import Mathlib

/-!
# BookMyShows: the browser-side booking script (static/scripts.js)

A shallow embedding of the seat-selection, locking, payment, countdown and
search-debounce code of `static/scripts.js`.

* The script's module-level variables and the parts of the document it reads
  and writes are the fields of `Page`.  The elements the script looks up by id
  (`lockSeatsBtn`, `totalPrice`, `paymentModal`, ...) are taken to be present,
  as in the page the script is served with.
* An `async` function is split at its `await`: the part that runs up to the
  request (`...Begin`) and the part that runs when the response has arrived
  (`...Resume`), which takes the outcome of the request as an argument.
* `setTimeout` / `setInterval` calls are recorded, not executed, except in the
  model of the search debounce, which runs on a logical clock.
* JavaScript numbers are modelled exactly: a finite double is `m * 2^e` with a
  sign, products are rounded to the nearest double (ties to even).
* The seat elements are the only elements with a `data-seat` attribute.  A
  `querySelector` call with a seat number spliced into the selector is modelled
  exactly for plain seat numbers; for the others the selector engine's answer
  (a SyntaxError, `null` or an element) is a parameter.
* `showMessage` writes its text through `innerHTML`: a message keeps the text
  as passed, and `Message.shownText` is what the browser shows for it.
-/

namespace BookMyShows

/-! ## DOM token lists (`classList`) -/

/-- `classList.contains(c)`. -/
def classContains (cl : List String) (c : String) : Bool := cl.contains c

/-- `classList.add(c)`: the token is appended unless already present. -/
def classAdd (cl : List String) (c : String) : List String :=
  if cl.contains c then cl else cl ++ [c]

/-- `classList.remove(c)`. -/
def classRemove (cl : List String) (c : String) : List String :=
  cl.filter (fun x => x != c)

/-! ## JavaScript numbers -/

/-- An ECMAScript Number: NaN, an infinity, or the finite value
`(-1)^neg * m * 2^e`. -/
inductive JSNumber where
  | nan
  | inf (neg : Bool)
  | fin (neg : Bool) (m : Nat) (e : Int)
deriving DecidableEq, Repr

/-- The number of binary digits of `n` (with enough `fuel`). -/
def bitLength : Nat → Nat → Nat
  | 0, _ => 0
  | fuel + 1, n => if n = 0 then 0 else bitLength fuel (n / 2) + 1

/-- Round the exact value `m * 2^e` to the nearest IEEE-754 binary64 value,
ties to even; overflow gives an infinity, underflow a zero. -/
def roundToDouble (neg : Bool) (m : Nat) (e : Int) : JSNumber :=
  if m = 0 then .fin neg 0 0
  else
    let bits : Int := (bitLength m m : Int)
    let drop : Int := max (bits - 53) (-1074 - e)
    if drop ≤ 0 then
      if bits + e > 1024 then .inf neg else .fin neg m e
    else
      let d := drop.toNat
      let q := m / 2 ^ d
      let r := m % 2 ^ d
      let half := 2 ^ (d - 1)
      let q1 := if r > half ∨ (r = half ∧ q % 2 = 1) then q + 1 else q
      if (bitLength q1 q1 : Int) + (e + drop) > 1024 then .inf neg
      else .fin neg q1 (e + drop)

/-- The Number of an array length (exact: lengths are below `2^32`). -/
def JSNumber.ofNat (n : Nat) : JSNumber := .fin false n 0

/-- The `*` operator on Numbers. -/
def jsMul : JSNumber → JSNumber → JSNumber
  | .nan, _ => .nan
  | _, .nan => .nan
  | .inf a, .inf b => .inf (xor a b)
  | .inf a, .fin b m _ => if m = 0 then .nan else .inf (xor a b)
  | .fin a m _, .inf b => if m = 0 then .nan else .inf (xor a b)
  | .fin a m e, .fin b n f => roundToDouble (xor a b) (m * n) (e + f)

/-- One decimal digit as a character. -/
def digitChar (d : Nat) : Char := Char.ofNat (48 + d % 10)

/-- The decimal digits of `n`, most significant first, prepended to `acc`. -/
def decimalDigits : Nat → Nat → List Char → List Char
  | 0, _, acc => acc
  | fuel + 1, n, acc =>
    if n / 10 = 0 then digitChar n :: acc
    else decimalDigits fuel (n / 10) (digitChar n :: acc)

/-- The decimal representation of a natural number (`String(n)` for an
integer Number below `10^21`). -/
def natToString (n : Nat) : String := String.mk (decimalDigits (n + 1) n [])

/-- The integer `n` for which `n / 100` is closest to `m * 2^e`, the larger one
on a tie (step 11 of `Number.prototype.toFixed` with two fraction digits). -/
def toFixedInt (m : Nat) (e : Int) : Nat :=
  if 0 ≤ e then m * 2 ^ e.toNat * 100
  else (200 * m + 2 ^ (-e).toNat) / 2 ^ ((-e).toNat + 1)

/-- Whether `m * 2^e ≥ 10^21`. -/
def geTenPow21 (m : Nat) (e : Int) : Bool :=
  if 0 ≤ e then decide (10 ^ 21 ≤ m * 2 ^ e.toNat)
  else decide (10 ^ 21 * 2 ^ (-e).toNat ≤ m)

/-- Insert the decimal point of `toFixed(2)`: pad the digits to three with
leading zeros and put a "." before the last two. -/
def insertPoint2 (ds : List Char) : List Char :=
  let padded := List.replicate (3 - ds.length) '0' ++ ds
  padded.take (padded.length - 2) ++ '.' :: padded.drop (padded.length - 2)

/-- `x.toFixed(2)`.  `numberToString` is `Number::toString`, which `toFixed`
falls back to for finite values of magnitude `10^21` and above. -/
def toFixed2 (numberToString : JSNumber → String) : JSNumber → String
  | .nan => "NaN"
  | .inf false => "Infinity"
  | .inf true => "-Infinity"
  | .fin neg m e =>
    let s := if neg ∧ m ≠ 0 then "-" else ""
    if geTenPow21 m e then s ++ numberToString (.fin false m e)
    else s ++ String.mk (insertPoint2 (decimalDigits (toFixedInt m e + 1) (toFixedInt m e) []))

/-! ## The page -/

/-- A seat element of the seat grid: `data-seat`, `data-status`, its class
list, and whether `initializeSeatSelection` gave it a click listener. -/
structure Seat where
  seat : String
  status : String
  classList : List String
  hasListener : Bool
deriving DecidableEq, Repr

/-- A button element. -/
structure Button where
  disabled : Bool
  textContent : String
  classList : List String
  display : String
deriving DecidableEq, Repr

/-- A message node put up by `showMessage`: `text` is the argument as passed,
which the code splices into the `innerHTML` of the node (what the browser then
shows is `Message.shownText`), and `kind` is the `type` argument. -/
structure Message where
  text : String
  kind : String
deriving DecidableEq, Repr

/-- What a `setTimeout` callback of the script does when it fires. -/
inductive TimeoutAction where
  | reload
  | redirect (url : String)
  | fadeMessage (m : Message)
deriving DecidableEq, Repr

/-- A `fetch` issued by the booking flow (all are POSTs with the CSRF header
and a JSON body). -/
structure Request where
  url : String
  csrfToken : String
  showId : Option String
  seats : List String
  paymentId : Option String
deriving DecidableEq, Repr

/-- The value of the `lockExpiry` variable. -/
inductive LockExpiry where
  | null
  | invalidDate
  | time (ms : Int)
deriving DecidableEq, Repr

/-- The options object handed to the payment widget by `openRazorpay`. -/
structure RazorpayOptions where
  key : String
  amount : JSNumber
  currency : String
  orderId : String
deriving DecidableEq, Repr

/-- The script's variables, the document, and the effects recorded so far. -/
structure Page where
  -- module-level variables
  selectedSeats : List String
  showId : Option String
  pricePerSeat : JSNumber
  lockTimer : Option Nat
  lockExpiry : LockExpiry
  -- document
  seatGridShowId : Option String
  priceElementValue : JSNumber
  csrfToken : String
  razorpayKey : String
  seats : List Seat
  selectedSeatsText : String
  seatCount : String
  totalPrice : String
  lockSeatsBtn : Button
  proceedPaymentBtn : Button
  timerDisplayShown : String
  timerBackground : String
  timerColor : String
  timerText : String
  modalDisplay : String
  paymentMessage : String
  messages : List Message
  -- effects
  requests : List Request
  timeouts : List (Nat × TimeoutAction)
  intervals : List Nat
  nextTimerId : Nat
  alerts : List String
  reloads : Nat
  widgetOpened : List RazorpayOptions
  consoleErrors : List String
deriving DecidableEq, Repr

/-! ## Seat selection -/

/-- `updateBookingSummary()`. -/
def updateBookingSummary (numberToString : JSNumber → String) (p : Page) : Page :=
  if p.selectedSeats.length = 0 then
    { p with
      selectedSeatsText := "None"
      seatCount := "0 seat(s) selected"
      totalPrice := "0"
      lockSeatsBtn := { p.lockSeatsBtn with disabled := true } }
  else
    { p with
      selectedSeatsText := ", ".intercalate p.selectedSeats
      seatCount := natToString p.selectedSeats.length ++ " seat(s) selected"
      totalPrice :=
        toFixed2 numberToString (jsMul (JSNumber.ofNat p.selectedSeats.length) p.pricePerSeat)
      lockSeatsBtn := { p.lockSeatsBtn with disabled := false } }

/-- `toggleSeat(seatElement)`, the element being the `i`-th seat element. -/
def toggleSeat (numberToString : JSNumber → String) (p : Page) (i : Nat) : Page :=
  match p.seats[i]? with
  | none => p
  | some el =>
    if el.status != "available" then p
    else if classContains el.classList "selected" then
      updateBookingSummary numberToString
        { p with
          seats := p.seats.set i { el with classList := classRemove el.classList "selected" }
          selectedSeats := p.selectedSeats.filter (fun s => s != el.seat) }
    else
      updateBookingSummary numberToString
        { p with
          seats := p.seats.set i { el with classList := classAdd el.classList "selected" }
          selectedSeats := p.selectedSeats ++ [el.seat] }

/-- `initializeSeatSelection()`: reads the show id and the price, and gives a
click listener to every element matching `.seat.available`. -/
def initializeSeatSelection (p : Page) : Page :=
  { p with
    showId := p.seatGridShowId
    pricePerSeat := p.priceElementValue
    seats := p.seats.map (fun el =>
      if classContains el.classList "seat" && classContains el.classList "available"
      then { el with hasListener := true } else el) }

/-- A click on the `i`-th seat element: runs the listener, if it has one. -/
def clickSeat (numberToString : JSNumber → String) (p : Page) (i : Nat) : Page :=
  match p.seats[i]? with
  | none => p
  | some el => if el.hasListener then toggleSeat numberToString p i else p

/-! ## Messages -/

/-- `showMessage(text, type)`: removes the messages of the same type, appends
the new one (its `innerHTML` built from `text`), and schedules its fade-out
after 5000 ms unless it is an error. -/
def showMessage (p : Page) (text : String) (type : String) : Page :=
  let message : Message := { text := text, kind := type }
  let p1 := { p with messages := p.messages.filter (fun m => m.kind != type) ++ [message] }
  if type != "error" then
    { p1 with timeouts := p1.timeouts ++ [(5000, TimeoutAction.fadeMessage message)] }
  else p1

/-- The text the browser shows for markup spliced into the `<span>` of a
message, for the markup this model covers: ordinary characters stand for
themselves, the tags `<b>` and `</b>` show nothing, and the character
references `&amp;`, `&lt;`, `&gt;` show one character.  Any other use of "<"
or "&", a carriage return or a NUL gives `none`: not covered. -/
def renderMarkup : List Char → Option (List Char)
  | [] => some []
  | c :: rest =>
    if c = '<' then
      match rest with
      | 'b' :: '>' :: rest2 => renderMarkup rest2
      | '/' :: 'b' :: '>' :: rest2 => renderMarkup rest2
      | _ => none
    else if c = '&' then
      match rest with
      | 'a' :: 'm' :: 'p' :: ';' :: rest2 => (renderMarkup rest2).map (fun t => '&' :: t)
      | 'l' :: 't' :: ';' :: rest2 => (renderMarkup rest2).map (fun t => '<' :: t)
      | 'g' :: 't' :: ';' :: rest2 => (renderMarkup rest2).map (fun t => '>' :: t)
      | _ => none
    else if c.toNat = 13 ∨ c.toNat = 0 then none
    else (renderMarkup rest).map (fun t => c :: t)

/-- The text a message shows: its `text` argument after the parse that the
assignment to `innerHTML` performs. -/
def Message.shownText (m : Message) : Option String :=
  (renderMarkup m.text.data).map String.mk

/-- No character of the string is markup to the HTML parser: no "<", no "&",
no carriage return, no NUL. -/
def markupFree (s : String) : Bool :=
  s.data.all (fun c => c != '<' && c != '&' && c.toNat != 13 && c.toNat != 0)

/-- Whether the characters `s` begin with the characters `x`. -/
def startsWithChars : List Char → List Char → Bool
  | _, [] => true
  | [], _ :: _ => false
  | c :: s, d :: x => c == d && startsWithChars s x

/-- Whether the characters `x` occur in `s` as a contiguous run. -/
def containsChars : List Char → List Char → Bool
  | [], x => startsWithChars [] x
  | c :: s, x => startsWithChars (c :: s) x || containsChars s x

/-! ## Requests and their outcomes -/

/-- How an awaited `fetch(...)` followed by `response.json()` ends: the request
is rejected, the body cannot be parsed, or a JSON object arrives. -/
inductive FetchResult (α : Type) where
  | rejected
  | unparsable
  | json (data : α)
deriving DecidableEq, Repr

/-- The fields `lockSeats` reads from the lock response; `expiresAt` is the
time value of `new Date(data.expires_at)`, `none` for an invalid date. -/
structure LockData where
  success : Bool
  error : Option String
  expiresAt : Option Int
deriving DecidableEq, Repr

/-- The fields read from the order-creation response. -/
structure OrderData where
  success : Bool
  error : Option String
  amount : JSNumber
  currency : String
  orderId : String
deriving DecidableEq, Repr

/-- The fields read from the confirmation response. -/
structure ConfirmData where
  success : Bool
  error : Option String
deriving DecidableEq, Repr

/-- String concatenation with `data.error`: a missing field prints as
"undefined". -/
def errorText (e : Option String) : String :=
  match e with
  | some x => x
  | none => "undefined"

/-! ## Locking -/

/-- The index of the first seat element whose `data-seat` is `n` (the seat
elements being the only elements of the document with that attribute). -/
def firstSeatIndex : List Seat → String → Option Nat
  | [], _ => none
  | el :: rest, n =>
    if el.seat = n then some 0 else (firstSeatIndex rest n).map (fun i => i + 1)

/-- How a `document.querySelector(...)` call ends: it throws a SyntaxError
(the selector is invalid), returns `null`, or returns an element. -/
inductive SelectorResult where
  | syntaxError
  | noMatch
  | element (i : Nat)
deriving DecidableEq, Repr

/-- The seat number can be spliced between the double quotes of the selector
as it is: it has no double quote, backslash, line feed, form feed, carriage
return or NUL, so that the selector is the attribute selector for exactly this
value. -/
def plainSeatId (n : String) : Bool :=
  n.data.all (fun c =>
    c.toNat != 34 && c.toNat != 92 && c.toNat != 10 && c.toNat != 12 && c.toNat != 13 &&
      c.toNat != 0)

/-- `document.querySelector('[data-seat="' + n + '"]')`.  For a plain seat
number it finds the first element whose `data-seat` is `n`; for any other one
the spliced text is whatever selector (or non-selector) it happens to spell,
and `oddSelector` is the selector engine's answer for it on the current
elements. -/
def querySelectorSeat (oddSelector : String → List Seat → SelectorResult)
    (seats : List Seat) (n : String) : SelectorResult :=
  if plainSeatId n then
    match firstSeatIndex seats n with
    | some i => SelectorResult.element i
    | none => SelectorResult.noMatch
  else oddSelector n seats

/-- The three writes of the `forEach` body on the `i`-th seat element. -/
def lockSeatElement (seats : List Seat) (i : Nat) : List Seat :=
  match seats[i]? with
  | none => seats
  | some el =>
    seats.set i
      { el with
        classList :=
          classAdd (classRemove (classRemove el.classList "selected") "available")
            "user_locked"
        status := "user_locked" }

/-- The body of the `forEach` in the success branch of `lockSeats`, for one
plain seat number. -/
def markUserLocked (seats : List Seat) (seatNumber : String) : List Seat :=
  match firstSeatIndex seats seatNumber with
  | none => seats
  | some i => lockSeatElement seats i

/-- The `forEach` over `selectedSeats` in the success branch of `lockSeats`:
the seat elements as it leaves them, and whether a `querySelector` call threw
(which ends the loop there, the earlier writes staying in place). -/
def markSelectedSeats (oddSelector : String → List Seat → SelectorResult) :
    List Seat → List String → List Seat × Bool
  | seats, [] => (seats, false)
  | seats, n :: rest =>
    match querySelectorSeat oddSelector seats n with
    | SelectorResult.syntaxError => (seats, true)
    | SelectorResult.noMatch => markSelectedSeats oddSelector seats rest
    | SelectorResult.element i => markSelectedSeats oddSelector (lockSeatElement seats i) rest

/-- `startLockTimer()`: shows the timer and registers the one-second interval
whose callback is `lockTimerTick`. -/
def startLockTimer (p : Page) : Page :=
  { p with
    timerDisplayShown := "block"
    lockTimer := some p.nextTimerId
    intervals := p.intervals ++ [p.nextTimerId]
    nextTimerId := p.nextTimerId + 1 }

/-- `clearInterval(lockTimer)`. -/
def clearLockInterval (p : Page) : Page :=
  match p.lockTimer with
  | none => p
  | some id => { p with intervals := p.intervals.filter (fun i => i != id) }

/-- The restoring of the lock button shared by both failure branches. -/
def restoreLockBtn (p : Page) (originalText : String) : Page :=
  { p with
    lockSeatsBtn :=
      { p.lockSeatsBtn with
        disabled := false
        textContent := originalText
        classList := classRemove p.lockSeatsBtn.classList "loading" } }

/-- `lockSeats()` up to its `await`: the early return on an empty selection
(second component `none`), or the button put in its loading state and the
request sent (second component: the saved `originalText`). -/
def lockSeatsBegin (p : Page) : Page × Option String :=
  if p.selectedSeats.length = 0 then
    (showMessage p "Please select at least one seat" "warning", none)
  else
    let originalText := p.lockSeatsBtn.textContent
    ({ p with
        lockSeatsBtn :=
          { p.lockSeatsBtn with
            disabled := true
            textContent := "Locking..."
            classList := classAdd p.lockSeatsBtn.classList "loading" }
        requests := p.requests ++
          [{ url := "/api/lock_seats/", csrfToken := p.csrfToken, showId := p.showId,
             seats := p.selectedSeats, paymentId := none }] },
      some originalText)

/-- The `catch` block of `lockSeats`. -/
def lockSeatsCatch (p : Page) (originalText : String) : Page :=
  let p1 := { p with consoleErrors := p.consoleErrors ++ ["Error locking seats:"] }
  restoreLockBtn
    (showMessage p1 "An error occurred while locking seats. Please try again." "error")
    originalText

/-- `lockSeats()` from the arrival of the response on.  `oddSelector` is the
selector engine's answer for seat numbers that are not plain. -/
def lockSeatsResume (oddSelector : String → List Seat → SelectorResult) (p : Page)
    (originalText : String) (res : FetchResult LockData) : Page :=
  match res with
  | .json data =>
    if data.success then
      let marked := markSelectedSeats oddSelector p.seats p.selectedSeats
      let p1 := { p with seats := marked.1 }
      if marked.2 then lockSeatsCatch p1 originalText
      else
        let p2 := { p1 with
          lockExpiry := match data.expiresAt with
            | some ms => LockExpiry.time ms
            | none => LockExpiry.invalidDate }
        let p3 := startLockTimer p2
        let p4 := { p3 with
          proceedPaymentBtn := { p3.proceedPaymentBtn with display := "inline-block" }
          lockSeatsBtn := { p3.lockSeatsBtn with display := "none" } }
        showMessage p4 "Seats locked successfully! Complete payment within 5 minutes." "success"
    else
      restoreLockBtn (showMessage p ("Error: " ++ errorText data.error) "error") originalText
  | _ => lockSeatsCatch p originalText

/-- `lockSeats()` run to completion with no other event between the request
and its response. -/
def lockSeats (oddSelector : String → List Seat → SelectorResult) (p : Page)
    (res : FetchResult LockData) : Page :=
  match lockSeatsBegin p with
  | (q, none) => q
  | (q, some originalText) => lockSeatsResume oddSelector q originalText res

/-- `lockSeats()` with the seat clicks `inFlight` arriving between the sending
of the request and the arrival of its response. -/
def lockSeatsWithClicks (numberToString : JSNumber → String)
    (oddSelector : String → List Seat → SelectorResult) (p : Page) (inFlight : List Nat)
    (res : FetchResult LockData) : Page :=
  match lockSeatsBegin p with
  | (q, none) => inFlight.foldl (clickSeat numberToString) q
  | (q, some originalText) =>
    lockSeatsResume oddSelector (inFlight.foldl (clickSeat numberToString) q) originalText res

/-! ## The countdown -/

/-- `s.padStart(2, '0')`. -/
def padStart2 (s : String) : String :=
  if 2 ≤ s.length then s else String.mk (List.replicate (2 - s.length) '0') ++ s

/-- The text written by the non-expired branch of the tick for a remaining
time of `t` milliseconds. -/
def timerLabel (t : Nat) : String :=
  natToString (t / 60000) ++ ":" ++ padStart2 (natToString (t % 60000 / 1000))

/-- The Number `lockExpiry - now`: `none` stands for NaN (an invalid date), and
`null` converts to 0. -/
def remainingTime (expiry : LockExpiry) (now : Int) : Option Int :=
  match expiry with
  | .null => some (0 - now)
  | .invalidDate => none
  | .time ms => some (ms - now)

/-- One run of the interval callback of `startLockTimer`, `now` being the time
value of `new Date()`. -/
def lockTimerTick (p : Page) (now : Int) : Page :=
  match remainingTime p.lockExpiry now with
  | none => { p with timerText := "NaN:NaN" }
  | some timeLeft =>
    if timeLeft ≤ 0 then
      let p1 := clearLockInterval p
      { p1 with
        timerText := "0:00"
        alerts := p1.alerts ++ ["Your seat lock has expired. Please select seats again."]
        reloads := p1.reloads + 1 }
    else
      let p1 := { p with timerText := timerLabel timeLeft.toNat }
      if timeLeft ≤ 60000 ∧ p1.timerBackground ≠ "rgb(220, 53, 69)" then
        { p1 with timerBackground := "rgb(220, 53, 69)", timerColor := "white" }
      else p1

/-! ## Payment -/

/-- The restoring of the payment button shared by both failure branches. -/
def restorePaymentBtn (p : Page) (originalText : String) : Page :=
  { p with
    proceedPaymentBtn :=
      { p.proceedPaymentBtn with
        disabled := false
        textContent := originalText
        classList := classRemove p.proceedPaymentBtn.classList "loading" } }

/-- `initiatePayment()` up to its `await`; returns the saved `originalText`. -/
def initiatePaymentBegin (p : Page) : Page × String :=
  let originalText := p.proceedPaymentBtn.textContent
  ({ p with
      proceedPaymentBtn :=
        { p.proceedPaymentBtn with
          disabled := true
          textContent := "Processing..."
          classList := classAdd p.proceedPaymentBtn.classList "loading" }
      paymentMessage := "Initializing payment..."
      modalDisplay := "flex"
      requests := p.requests ++
        [{ url := "/api/create_order/", csrfToken := p.csrfToken, showId := p.showId,
           seats := p.selectedSeats, paymentId := none }] },
    originalText)

/-- `openRazorpay(orderData)`: hides the modal and opens the payment widget. -/
def openRazorpay (p : Page) (orderData : OrderData) : Page :=
  { p with
    modalDisplay := "none"
    widgetOpened := p.widgetOpened ++
      [{ key := p.razorpayKey, amount := jsMul orderData.amount (JSNumber.ofNat 100),
         currency := orderData.currency, orderId := orderData.orderId }] }

/-- `initiatePayment()` from the arrival of the response on. -/
def initiatePaymentResume (p : Page) (originalText : String) (res : FetchResult OrderData) :
    Page :=
  match res with
  | .json data =>
    if data.success then openRazorpay p data
    else
      restorePaymentBtn
        (showMessage { p with modalDisplay := "none" } ("Error: " ++ errorText data.error)
          "error")
        originalText
  | _ =>
    let p1 := { p with
      consoleErrors := p.consoleErrors ++ ["Error creating order:"]
      modalDisplay := "none" }
    restorePaymentBtn
      (showMessage p1 "An error occurred while initializing payment. Please try again." "error")
      originalText

/-- `initiatePayment()` run to completion with no other event between the
request and its response. -/
def initiatePayment (p : Page) (res : FetchResult OrderData) : Page :=
  initiatePaymentResume (initiatePaymentBegin p).1 (initiatePaymentBegin p).2 res

/-- The `ondismiss` callback of the payment widget. -/
def paymentDismissed (p : Page) : Page :=
  { p with
    modalDisplay := "none"
    proceedPaymentBtn :=
      { p.proceedPaymentBtn with disabled := false, textContent := "Proceed to Payment" }
    alerts := p.alerts ++ ["Payment cancelled. Your seats are still locked."] }

/-- `handlePaymentSuccess(paymentResponse)` up to its `await`. -/
def handlePaymentSuccessBegin (p : Page) (razorpayPaymentId : Option String) : Page :=
  { p with
    modalDisplay := "flex"
    paymentMessage := "Confirming your booking..."
    requests := p.requests ++
      [{ url := "/api/confirm_booking/", csrfToken := p.csrfToken, showId := p.showId,
         seats := p.selectedSeats, paymentId := razorpayPaymentId }] }

/-- `handlePaymentSuccess(paymentResponse)` from the arrival of the response
on. -/
def handlePaymentSuccessResume (p : Page) (res : FetchResult ConfirmData) : Page :=
  match res with
  | .json data =>
    if data.success then
      let p1 :=
        match p.lockTimer with
        | some id => if id ≠ 0 then clearLockInterval p else p
        | none => p
      let p2 := { p1 with paymentMessage := "Booking confirmed! Redirecting..." }
      let p3 := showMessage p2 "Booking confirmed successfully!" "success"
      { p3 with timeouts := p3.timeouts ++ [(2000, TimeoutAction.redirect "/bookings/")] }
    else
      let p1 :=
        showMessage { p with modalDisplay := "none" }
          ("Error confirming booking: " ++ errorText data.error) "error"
      { p1 with timeouts := p1.timeouts ++ [(3000, TimeoutAction.reload)] }
  | _ =>
    let p1 := { p with
      consoleErrors := p.consoleErrors ++ ["Error confirming booking:"]
      modalDisplay := "none" }
    showMessage p1 "An error occurred while confirming booking. Please contact support." "error"

/-- `handlePaymentSuccess(paymentResponse)` run to completion with no other
event between the request and its response. -/
def handlePaymentSuccess (p : Page) (razorpayPaymentId : Option String)
    (res : FetchResult ConfirmData) : Page :=
  handlePaymentSuccessResume (handlePaymentSuccessBegin p razorpayPaymentId) res

/-! ## The search debounce of `initializeMovieFilters` -/

/-- The state the search listener works on, with a logical clock in
milliseconds: the `searchDebounce` variable, the pending timeouts (id and due
time; the callback of each is `fetchFilteredMovies`), the times at which
`fetchFilteredMovies` has been called, and the `display` of the clear-search
button when the page has one. -/
structure FilterPage where
  now : Nat
  searchDebounce : Option Nat
  nextTimerId : Nat
  pending : List (Nat × Nat)
  fetchCalls : List Nat
  clearSearchDisplay : Option String
deriving DecidableEq, Repr

/-- The page as `initializeMovieFilters` leaves it at time `t0`. -/
def FilterPage.init (t0 : Nat) (clearSearchDisplay : Option String) : FilterPage :=
  { now := t0, searchDebounce := none, nextTimerId := 1, pending := [], fetchCalls := [],
    clearSearchDisplay := clearSearchDisplay }

/-- `clearTimeout(id)`. -/
def clearTimeoutId (pending : List (Nat × Nat)) (id : Option Nat) : List (Nat × Nat) :=
  match id with
  | none => pending
  | some i => pending.filter (fun t => t.1 != i)

/-- The characters `String.prototype.trim` strips: the ECMAScript WhiteSpace
and LineTerminator code points. -/
def jsIsWhiteSpace (c : Char) : Bool :=
  c.toNat == 9 || c.toNat == 10 || c.toNat == 11 || c.toNat == 12 || c.toNat == 13 ||
  c.toNat == 32 || c.toNat == 160 || c.toNat == 5760 ||
  (decide (8192 ≤ c.toNat) && decide (c.toNat ≤ 8202)) ||
  c.toNat == 8232 || c.toNat == 8233 || c.toNat == 8239 || c.toNat == 8287 ||
  c.toNat == 12288 || c.toNat == 65279

/-- `s.trim()`. -/
def jsTrim (s : String) : String :=
  String.mk ((s.data.dropWhile jsIsWhiteSpace).reverse.dropWhile jsIsWhiteSpace).reverse

/-- The `input` listener of the search field, run at the current time with the
field holding `value`. -/
def onSearchInput (s : FilterPage) (value : String) : FilterPage :=
  let val := jsTrim value
  { s with
    clearSearchDisplay :=
      match s.clearSearchDisplay with
      | some _ => some (if val ≠ "" then "flex" else "none")
      | none => none
    pending := clearTimeoutId s.pending s.searchDebounce ++ [(s.nextTimerId, s.now + 250)]
    searchDebounce := some s.nextTimerId
    nextTimerId := s.nextTimerId + 1 }

/-- The event loop advancing the clock to `t`: every pending timeout that is
due by then fires at its due time and calls `fetchFilteredMovies`. -/
def advanceTo (s : FilterPage) (t : Nat) : FilterPage :=
  { s with
    now := max s.now t
    fetchCalls := s.fetchCalls ++ ((s.pending.filter (fun x => x.2 ≤ t)).map (fun x => x.2))
    pending := s.pending.filter (fun x => ¬ x.2 ≤ t) }

/-- An `input` event at time `t` with the field holding `value`. -/
def inputEventAt (s : FilterPage) (ev : Nat × String) : FilterPage :=
  onSearchInput (advanceTo s ev.1) ev.2

/-- The event loop left alone until no timeout is pending. -/
def settle (s : FilterPage) : FilterPage :=
  { s with
    fetchCalls := s.fetchCalls ++ s.pending.map (fun x => x.2)
    pending := [] }

/-- The times at which `fetchFilteredMovies` is called when the given `input`
events reach a freshly initialised page and the timers are then left to run. -/
def fetchTimes (t0 : Nat) (clearBtn : Option String) (events : List (Nat × String)) :
    List Nat :=
  (settle (events.foldl inputEventAt (FilterPage.init t0 clearBtn))).fetchCalls

/-- Each event follows the previous one by less than 250 ms. -/
def closelySpaced : List (Nat × String) → Bool
  | [] => true
  | [_] => true
  | a :: b :: rest => decide (a.1 ≤ b.1) && decide (b.1 < a.1 + 250) && closelySpaced (b :: rest)

/-! ## A concrete page -/

/-- A seat element as served: available, not selected, no listener yet. -/
def freshSeat (n : String) : Seat :=
  { seat := n, status := "available", classList := ["seat", "available"], hasListener := false }

/-- The same seat once `initializeSeatSelection` has given it its listener. -/
def listeningSeat (n : String) : Seat :=
  { seat := n, status := "available", classList := ["seat", "available"], hasListener := true }

/-- A seat page as served, before `DOMContentLoaded`: seats A1, A2, A3 at
150 a seat, nothing selected, the lock button disabled. -/
def servedPage : Page :=
  { selectedSeats := [], showId := none, pricePerSeat := JSNumber.fin false 0 0,
    lockTimer := none, lockExpiry := LockExpiry.null,
    seatGridShowId := some "7", priceElementValue := JSNumber.fin false 150 0,
    csrfToken := "tok", razorpayKey := "rzp_key",
    seats := [freshSeat "A1", freshSeat "A2", freshSeat "A3"],
    selectedSeatsText := "None", seatCount := "0 seat(s) selected", totalPrice := "0",
    lockSeatsBtn :=
      { disabled := true, textContent := "Lock Seats", classList := ["btn"], display := "" },
    proceedPaymentBtn :=
      { disabled := false, textContent := "Proceed to Payment", classList := ["btn"],
        display := "none" },
    timerDisplayShown := "none", timerBackground := "", timerColor := "", timerText := "",
    modalDisplay := "none", paymentMessage := "", messages := [],
    requests := [], timeouts := [], intervals := [], nextTimerId := 1, alerts := [],
    reloads := 0, widgetOpened := [], consoleErrors := [] }

/-- The served page after `DOMContentLoaded`. -/
def loadedPage : Page := initializeSeatSelection servedPage

/-- A stand-in for `Number::toString` on the concrete pages, where no total
reaches `10^21`. -/
def noBigNumbers : JSNumber → String := fun _ => ""

/-- A stand-in for the selector engine on the concrete pages: their only seat
number that is not plain is `quotedSeatId`, for which the spliced selector is
invalid and `querySelector` throws. -/
def throwingSelectors : String → List Seat → SelectorResult :=
  fun _ _ => SelectorResult.syntaxError

/-- The seat number A"1 (with a double quote in the middle). -/
def quotedSeatId : String := String.mk ['A', Char.ofNat 34, '1']

/-- A loaded seat page whose only seat has the number `quotedSeatId`. -/
def quotedIdPage : Page :=
  { loadedPage with seats := [listeningSeat quotedSeatId] }

/-! ## Reading digits back -/

/-- The number a list of decimal digit characters stands for. -/
def digitsValue (cs : List Char) : Nat :=
  cs.foldl (fun acc c => 10 * acc + (c.toNat - 48)) 0

/-! ## A page with a booked seat -/

/-- A seat element served as already booked: not available, no listener. -/
def bookedSeat (n : String) : Seat :=
  { seat := n, status := "booked", classList := ["seat", "booked"], hasListener := false }

/-- A loaded seat page whose lock button is served enabled: seat A1 available,
seat A2 booked, nothing selected. -/
def enabledButtonPage : Page :=
  { loadedPage with
    seats := [listeningSeat "A1", bookedSeat "A2"]
    lockSeatsBtn := { loadedPage.lockSeatsBtn with disabled := false } }

/-! ## The selection invariant -/

/-- The seat ids are pairwise distinct, SelectedSeats has no duplicate, a seat
element carries the selected marker exactly when its id is in SelectedSeats,
and every id in SelectedSeats is the id of some seat element. -/
def selectionInvariant (p : Page) : Prop :=
  (p.seats.map (fun el => el.seat)).Nodup ∧
  p.selectedSeats.Nodup ∧
  (∀ el ∈ p.seats, el.seat ∈ p.selectedSeats ↔ classContains el.classList "selected" = true) ∧
  (∀ x ∈ p.selectedSeats, x ∈ p.seats.map (fun el => el.seat))

/-- The lock button is disabled exactly when SelectedSeats is empty. -/
def buttonInSync (p : Page) : Prop :=
  p.lockSeatsBtn.disabled = true ↔ p.selectedSeats = []

/-! ## Lemmas on class lists and the summary -/

theorem classContains_classRemove (cl : List String) (c : String) :
    classContains (classRemove cl c) c = false := by
  simp [classContains, classRemove, List.contains_iff_exists_mem_beq]

theorem classContains_classAdd (cl : List String) (c : String) :
    classContains (classAdd cl c) c = true := by
  unfold classAdd classContains
  split
  · assumption
  · simp

theorem updateBookingSummary_seats (N : JSNumber → String) (p : Page) :
    (updateBookingSummary N p).seats = p.seats := by
  unfold updateBookingSummary; split <;> rfl

theorem updateBookingSummary_selectedSeats (N : JSNumber → String) (p : Page) :
    (updateBookingSummary N p).selectedSeats = p.selectedSeats := by
  unfold updateBookingSummary; split <;> rfl

theorem toggleSeat_not_available (N : JSNumber → String) (p : Page) (i : Nat) (el : Seat)
    (hel : p.seats[i]? = some el) (hs : el.status ≠ "available") : toggleSeat N p i = p := by
  simp [toggleSeat, hel, hs]

theorem toggleSeat_select (N : JSNumber → String) (p : Page) (i : Nat) (el : Seat)
    (hel : p.seats[i]? = some el) (hs : el.status = "available")
    (hc : classContains el.classList "selected" = false) :
    toggleSeat N p i = updateBookingSummary N
        { p with
          seats := p.seats.set i { el with classList := classAdd el.classList "selected" }
          selectedSeats := p.selectedSeats ++ [el.seat] } := by
  simp [toggleSeat, hel, hs, hc]

theorem toggleSeat_deselect (N : JSNumber → String) (p : Page) (i : Nat) (el : Seat)
    (hel : p.seats[i]? = some el) (hs : el.status = "available")
    (hc : classContains el.classList "selected" = true) :
    toggleSeat N p i = updateBookingSummary N
        { p with
          seats := p.seats.set i { el with classList := classRemove el.classList "selected" }
          selectedSeats := p.selectedSeats.filter (fun s => s != el.seat) } := by
  simp [toggleSeat, hel, hs, hc]

theorem getElem?_set_self_of_some {α : Type} (l : List α) (i : Nat) (a b : α)
    (h : l[i]? = some a) : (l.set i b)[i]? = some b := by
  have hi : i < l.length := by
    rcases Nat.lt_or_ge i l.length with h1 | h1
    · exact h1
    · rw [List.getElem?_eq_none h1] at h; cases h
  simp [List.getElem?_set, hi]

/-! ## Seat selection: toggling -/

/-- C4: for a seat whose status is not "available", `toggleSeat` changes
nothing at all (SelectedSeats, the selected marker and the summary included);
for an available seat it flips the selected marker of that element, leaves the
other elements alone, and appends the seat id to SelectedSeats when the marker
was absent, or removes the id from it when the marker was present. -/
theorem toggleSeat_contract (N : JSNumber → String) (p : Page) (i : Nat) (el : Seat)
    (hel : p.seats[i]? = some el) :
    (el.status ≠ "available" → toggleSeat N p i = p) ∧
    (el.status = "available" →
      (∀ j, j ≠ i → (toggleSeat N p i).seats[j]? = p.seats[j]?) ∧
      (classContains el.classList "selected" = false →
        (toggleSeat N p i).seats[i]? =
            some { el with classList := classAdd el.classList "selected" } ∧
        classContains (classAdd el.classList "selected") "selected" = true ∧
        (toggleSeat N p i).selectedSeats = p.selectedSeats ++ [el.seat]) ∧
      (classContains el.classList "selected" = true →
        (toggleSeat N p i).seats[i]? =
            some { el with classList := classRemove el.classList "selected" } ∧
        classContains (classRemove el.classList "selected") "selected" = false ∧
        (toggleSeat N p i).selectedSeats = p.selectedSeats.filter (fun s => s != el.seat) ∧
        el.seat ∉ (toggleSeat N p i).selectedSeats)) := by
  refine ⟨toggleSeat_not_available N p i el hel, fun hs => ⟨?_, ?_, ?_⟩⟩
  · intro j hj
    cases hc : classContains el.classList "selected"
    · rw [toggleSeat_select N p i el hel hs hc, updateBookingSummary_seats]
      simp [List.getElem?_set, Ne.symm hj]
    · rw [toggleSeat_deselect N p i el hel hs hc, updateBookingSummary_seats]
      simp [List.getElem?_set, Ne.symm hj]
  · intro hc
    rw [toggleSeat_select N p i el hel hs hc, updateBookingSummary_seats,
      updateBookingSummary_selectedSeats]
    exact ⟨getElem?_set_self_of_some _ _ _ _ hel, classContains_classAdd _ _, rfl⟩
  · intro hc
    rw [toggleSeat_deselect N p i el hel hs hc, updateBookingSummary_seats,
      updateBookingSummary_selectedSeats]
    refine ⟨getElem?_set_self_of_some _ _ _ _ hel, classContains_classRemove _ _, rfl, ?_⟩
    simp

/-- Witness for C4 on the loaded page: the first click on seat A1 selects it. -/
theorem toggleSeat_contract_witness :
    loadedPage.seats[0]? = some (listeningSeat "A1") ∧
    (toggleSeat noBigNumbers loadedPage 0).selectedSeats = [] ++ ["A1"] :=
  ⟨by decide,
   (((toggleSeat_contract noBigNumbers loadedPage 0 (listeningSeat "A1") (by decide)).2
      (by decide)).2.1 (by decide)).2.2⟩

/-- C1, as stated, fails: on the page reached by clicking A1 and then A2, two
more toggles of A1 turn SelectedSeats from A1, A2 into A2, A1. -/
theorem toggleSeat_twice_reorders :
    (clickSeat noBigNumbers (clickSeat noBigNumbers loadedPage 0) 1).selectedSeats
        = ["A1", "A2"] ∧
    ((clickSeat noBigNumbers (clickSeat noBigNumbers loadedPage 0) 1).seats[0]?).map
        (fun el => el.status) = some "available" ∧
    (toggleSeat noBigNumbers
        (toggleSeat noBigNumbers
          (clickSeat noBigNumbers (clickSeat noBigNumbers loadedPage 0) 1) 0) 0).selectedSeats
        = ["A2", "A1"] ∧
    (toggleSeat noBigNumbers
        (toggleSeat noBigNumbers
          (clickSeat noBigNumbers (clickSeat noBigNumbers loadedPage 0) 1) 0) 0).selectedSeats
        ≠ (clickSeat noBigNumbers (clickSeat noBigNumbers loadedPage 0) 1).selectedSeats := by
  decide

/-- C1, amended: for an available seat whose selected marker agrees with its
membership in SelectedSeats, two `toggleSeat` calls in a row leave SelectedSeats
with the same members and the seat's selected marker as it was; the list
itself is unchanged when the seat was not selected before the calls, and when
it was selected its id has moved to the end, the other ids keeping their
order. -/
theorem toggleSeat_twice (N : JSNumber → String) (p : Page) (i : Nat) (el : Seat)
    (hel : p.seats[i]? = some el) (hs : el.status = "available")
    (hcons : classContains el.classList "selected" = true ↔ el.seat ∈ p.selectedSeats) :
    (∀ x, x ∈ (toggleSeat N (toggleSeat N p i) i).selectedSeats ↔ x ∈ p.selectedSeats) ∧
    (classContains el.classList "selected" = false →
      (toggleSeat N (toggleSeat N p i) i).selectedSeats = p.selectedSeats) ∧
    (classContains el.classList "selected" = true →
      (toggleSeat N (toggleSeat N p i) i).selectedSeats
        = p.selectedSeats.filter (fun s => s != el.seat) ++ [el.seat]) ∧
    (∃ el2, (toggleSeat N (toggleSeat N p i) i).seats[i]? = some el2 ∧
      el2.seat = el.seat ∧ el2.status = el.status ∧
      classContains el2.classList "selected" = classContains el.classList "selected") := by
  cases hc : classContains el.classList "selected"
  · have hnot : el.seat ∉ p.selectedSeats := fun h => by
      have := hcons.2 h
      rw [hc] at this; cases this
    have h1 := toggleSeat_select N p i el hel hs hc
    have hel1 : (toggleSeat N p i).seats[i]? =
        some { el with classList := classAdd el.classList "selected" } := by
      rw [h1, updateBookingSummary_seats]; exact getElem?_set_self_of_some _ _ _ _ hel
    have h2 := toggleSeat_deselect N (toggleSeat N p i) i _ hel1 hs
      (classContains_classAdd _ _)
    have hsel : (toggleSeat N (toggleSeat N p i) i).selectedSeats = p.selectedSeats := by
      rw [h2, updateBookingSummary_selectedSeats, h1, updateBookingSummary_selectedSeats]
      simp only [List.filter_append]
      have : List.filter (fun s => s != el.seat) p.selectedSeats = p.selectedSeats := by
        rw [List.filter_eq_self]
        intro a ha
        simp only [bne_iff_ne, ne_eq]
        rintro rfl
        exact hnot ha
      simp [this]
    refine ⟨fun x => (by rw [hsel]), fun _ => hsel, fun h => (by cases h), ?_⟩
    refine ⟨{ el with
      classList := classRemove (classAdd el.classList "selected") "selected" }, ?_, rfl, rfl, ?_⟩
    · rw [h2, updateBookingSummary_seats]
      exact getElem?_set_self_of_some _ _ _ _ hel1
    · exact classContains_classRemove _ _
  · have hmem : el.seat ∈ p.selectedSeats := hcons.1 hc
    have h1 := toggleSeat_deselect N p i el hel hs hc
    have hel1 : (toggleSeat N p i).seats[i]? =
        some { el with classList := classRemove el.classList "selected" } := by
      rw [h1, updateBookingSummary_seats]; exact getElem?_set_self_of_some _ _ _ _ hel
    have h2 := toggleSeat_select N (toggleSeat N p i) i _ hel1 hs
      (classContains_classRemove _ _)
    have hsel : (toggleSeat N (toggleSeat N p i) i).selectedSeats
        = p.selectedSeats.filter (fun s => s != el.seat) ++ [el.seat] := by
      rw [h2, updateBookingSummary_selectedSeats, h1, updateBookingSummary_selectedSeats]
    refine ⟨fun x => ?_, fun h => (by cases h), fun _ => hsel, ?_⟩
    · rw [hsel]
      simp only [List.mem_append, List.mem_filter, bne_iff_ne, ne_eq, List.mem_singleton]
      constructor
      · rintro (⟨h, _⟩ | rfl)
        · exact h
        · exact hmem
      · intro h
        by_cases hx : x = el.seat
        · exact Or.inr hx
        · exact Or.inl ⟨h, hx⟩
    · refine ⟨{ el with
        classList := classAdd (classRemove el.classList "selected") "selected" }, ?_, rfl, rfl, ?_⟩
      · rw [h2, updateBookingSummary_seats]
        exact getElem?_set_self_of_some _ _ _ _ hel1
      · exact classContains_classAdd _ _

/-- Witness for the amended C1 on the page where A1 and A2 are selected: two
toggles of A1 move it to the end. -/
theorem toggleSeat_twice_witness :
    (toggleSeat noBigNumbers (toggleSeat noBigNumbers
        (clickSeat noBigNumbers (clickSeat noBigNumbers loadedPage 0) 1) 0) 0).selectedSeats
      = ["A2"] ++ ["A1"] :=
  (toggleSeat_twice noBigNumbers
    (clickSeat noBigNumbers (clickSeat noBigNumbers loadedPage 0) 1) 0
    { listeningSeat "A1" with classList := ["seat", "available", "selected"] }
    (by decide) (by decide) (by decide)).2.2.1 (by decide)

/-! ## The total of the booking summary -/

theorem digitChar_toNat (d : Nat) : (digitChar d).toNat = 48 + d % 10 := by
  have h : d % 10 < 10 := Nat.mod_lt _ (by decide)
  unfold digitChar
  generalize d % 10 = r at h
  interval_cases r <;> rfl

theorem digitChar_isDigit (d : Nat) : (digitChar d).isDigit = true := by
  have h : d % 10 < 10 := Nat.mod_lt _ (by decide)
  unfold digitChar
  generalize d % 10 = r at h
  interval_cases r <;> rfl

theorem digitsValue_append_singleton (ds : List Char) (c : Char) :
    digitsValue (ds ++ [c]) = 10 * digitsValue ds + (c.toNat - 48) := by
  simp [digitsValue, List.foldl_append]

theorem decimalDigits_spec (fuel : Nat) :
    ∀ n acc, n < fuel → ∃ ds, decimalDigits fuel n acc = ds ++ acc ∧ ds ≠ [] ∧
      (∀ c ∈ ds, c.isDigit = true) ∧ digitsValue ds = n := by
  induction fuel with
  | zero => intro n acc h; omega
  | succ fuel ih =>
    intro n acc h
    unfold decimalDigits
    split
    · rename_i h0
      refine ⟨[digitChar n], rfl, by simp, ?_, ?_⟩
      · intro c hc
        rw [List.mem_singleton] at hc
        rw [hc]; exact digitChar_isDigit n
      · simp only [digitsValue, List.foldl, digitChar_toNat]
        omega
    · rename_i h0
      obtain ⟨ds, h1, h2, h3, h4⟩ := ih (n / 10) (digitChar n :: acc) (by omega)
      refine ⟨ds ++ [digitChar n], by rw [h1]; simp, by simp, ?_, ?_⟩
      · intro c hc
        rcases List.mem_append.1 hc with hc | hc
        · exact h3 c hc
        · rw [List.mem_singleton] at hc
          rw [hc]; exact digitChar_isDigit n
      · rw [digitsValue_append_singleton, h4, digitChar_toNat]
        omega

theorem digitsValue_zeros (k : Nat) (ds : List Char) :
    digitsValue (List.replicate k '0' ++ ds) = digitsValue ds := by
  induction k with
  | zero => simp
  | succ k ih =>
    have h0 : ('0' : Char).toNat - 48 = 0 := by decide
    simp only [digitsValue, List.replicate_succ, List.cons_append, List.foldl_cons, h0] at ih ⊢
    exact ih

theorem insertPoint2_spec (ds : List Char) :
    ∃ a b, insertPoint2 ds = a ++ '.' :: b ∧
      a ++ b = List.replicate (3 - ds.length) '0' ++ ds ∧ b.length = 2 ∧ a ≠ [] := by
  refine ⟨_, _, rfl, List.take_append_drop _ _, ?_, ?_⟩
  · simp only [List.length_drop, List.length_append, List.length_replicate]
    omega
  · intro h
    have := congrArg List.length h
    simp only [List.length_take, List.length_append, List.length_replicate,
      List.length_nil] at this
    omega

theorem toFixedInt_nearest (m : Nat) (e : Int) :
    (100 * m * (2 : ℚ) ^ e - 1 / 2 < toFixedInt m e) ∧
    ((toFixedInt m e : ℚ) ≤ 100 * m * (2 : ℚ) ^ e + 1 / 2) := by
  unfold toFixedInt
  split
  · rename_i he
    obtain ⟨k, rfl⟩ := Int.eq_ofNat_of_zero_le he
    simp only [Int.toNat_ofNat, zpow_natCast]
    push_cast
    constructor <;> nlinarith [pow_pos (show (0 : ℚ) < 2 by norm_num) k]
  · rename_i he
    obtain ⟨k, hk⟩ : ∃ k : Nat, e = -(k : Int) := ⟨(-e).toNat, by omega⟩
    subst hk
    simp only [neg_neg, Int.toNat_ofNat, zpow_neg, zpow_natCast]
    have hpos : (0 : ℚ) < 2 ^ k := pow_pos (by norm_num) k
    have hdiv := Nat.div_add_mod (200 * m + 2 ^ k) (2 ^ (k + 1))
    have hlt := Nat.mod_lt (200 * m + 2 ^ k) (show 0 < 2 ^ (k + 1) from Nat.pow_pos (by decide))
    set q := (200 * m + 2 ^ k) / 2 ^ (k + 1) with hq
    set r := (200 * m + 2 ^ k) % 2 ^ (k + 1) with hr
    have hdivQ : (2 : ℚ) ^ (k + 1) * q + r = 200 * m + 2 ^ k := by exact_mod_cast hdiv
    have hltQ : (r : ℚ) < 2 ^ (k + 1) := by exact_mod_cast hlt
    have hr0 : (0 : ℚ) ≤ r := Nat.cast_nonneg r
    rw [pow_succ] at hdivQ hltQ
    constructor
    · rw [sub_lt_iff_lt_add, ← div_eq_mul_inv, div_lt_iff₀ hpos]
      nlinarith
    · rw [← div_eq_mul_inv, ← sub_le_iff_le_add, le_div_iff₀ hpos]
      nlinarith

/-- C2, as stated, fails in two ways: with nothing selected the total text is
"0", not the "0.00" that `toFixed(2)` gives for 0 × 150 (it has no decimal
point at all); and with a price that did not parse (NaN) the text for one
selected seat is "NaN". -/
theorem updateBookingSummary_total_not_two_decimals :
    loadedPage.selectedSeats = [] ∧
    (updateBookingSummary noBigNumbers loadedPage).totalPrice = "0" ∧
    toFixed2 noBigNumbers
      (jsMul (JSNumber.ofNat loadedPage.selectedSeats.length) loadedPage.pricePerSeat)
        = "0.00" ∧
    '.' ∉ (updateBookingSummary noBigNumbers loadedPage).totalPrice.data ∧
    (updateBookingSummary noBigNumbers
      { loadedPage with selectedSeats := ["A1"], pricePerSeat := JSNumber.nan }).totalPrice
        = "NaN" := by
  decide

/-- C2, amended: for the empty SelectedSeats list the total text is "0"; for a
non-empty list, whenever the Number product `length * pricePerSeat` is finite
and below `10^21` in magnitude, the total text is a sign (for a negative
product), at least one integer digit, a ".", and exactly two more digits, and
the digits read as an integer are the nearest integer to a hundred times the
magnitude of the product. -/
theorem updateBookingSummary_total (N : JSNumber → String) (p : Page) :
    (p.selectedSeats = [] → (updateBookingSummary N p).totalPrice = "0") ∧
    (p.selectedSeats ≠ [] → ∀ neg m e,
      jsMul (JSNumber.ofNat p.selectedSeats.length) p.pricePerSeat = JSNumber.fin neg m e →
      geTenPow21 m e = false →
      ∃ a b : List Char,
        (updateBookingSummary N p).totalPrice
          = (if neg ∧ m ≠ 0 then "-" else "") ++ String.mk (a ++ '.' :: b) ∧
        a ≠ [] ∧ b.length = 2 ∧ (∀ c ∈ a ++ b, c.isDigit = true) ∧
        (100 * m * (2 : ℚ) ^ e - 1 / 2 < digitsValue (a ++ b)) ∧
        ((digitsValue (a ++ b) : ℚ) ≤ 100 * m * (2 : ℚ) ^ e + 1 / 2)) := by
  constructor
  · intro h
    simp [updateBookingSummary, h]
  · intro h neg m e hprod hbig
    have hlen : p.selectedSeats.length ≠ 0 := by
      intro h0; exact h (List.length_eq_zero.1 h0)
    obtain ⟨ds, h1, _, h3, h4⟩ :=
      decimalDigits_spec (toFixedInt m e + 1) (toFixedInt m e) [] (Nat.lt_succ_self _)
    rw [List.append_nil] at h1
    obtain ⟨a, b, hab, hpad, hb, ha⟩ := insertPoint2_spec ds
    refine ⟨a, b, ?_, ha, hb, ?_, ?_⟩
    · simp only [updateBookingSummary, hlen, if_false, hprod, toFixed2, hbig, h1, hab]
      simp
    · intro c hc
      rw [hpad] at hc
      rcases List.mem_append.1 hc with hc | hc
      · rw [(List.mem_replicate.1 hc).2]; rfl
      · exact h3 c hc
    · rw [hpad, digitsValue_zeros, h4]
      exact toFixedInt_nearest m e

/-- Witness for the amended C2: two seats at 150 give the text "300.00". -/
theorem updateBookingSummary_total_witness :
    (updateBookingSummary noBigNumbers
        { loadedPage with selectedSeats := ["A1", "A2"] }).totalPrice = "300.00" ∧
    ∃ a b : List Char,
      (updateBookingSummary noBigNumbers
          { loadedPage with selectedSeats := ["A1", "A2"] }).totalPrice
        = (if false = true ∧ 300 ≠ 0 then "-" else "") ++ String.mk (a ++ '.' :: b) ∧
      a ≠ [] ∧ b.length = 2 ∧ (∀ c ∈ a ++ b, c.isDigit = true) ∧
      (100 * (300 : Nat) * (2 : ℚ) ^ (0 : Int) - 1 / 2 < digitsValue (a ++ b)) ∧
      ((digitsValue (a ++ b) : ℚ) ≤ 100 * (300 : Nat) * (2 : ℚ) ^ (0 : Int) + 1 / 2) :=
  ⟨by decide,
   (updateBookingSummary_total noBigNumbers
    { loadedPage with selectedSeats := ["A1", "A2"] }).2 (by decide) false 300 0 (by decide)
    (by decide)⟩

/-! ## After a successful lock -/

theorem showMessage_error (p : Page) (text : String) :
    showMessage p text "error" =
      { p with messages :=
          p.messages.filter (fun m => m.kind != "error") ++ [{ text := text, kind := "error" }] } :=
  rfl

theorem showMessage_requests (p : Page) (text type : String) :
    (showMessage p text type).requests = p.requests := by
  unfold showMessage; split <;> rfl

theorem lockSeatsResume_requests (Q : String → List Seat → SelectorResult) (p : Page)
    (orig : String) (res : FetchResult LockData) :
    (lockSeatsResume Q p orig res).requests = p.requests := by
  cases res with
  | rejected => rfl
  | unparsable => rfl
  | json data =>
    by_cases hs : data.success = true
    · cases hm : (markSelectedSeats Q p.seats p.selectedSeats).2
      · simp only [lockSeatsResume, hs, if_true, hm, Bool.false_eq_true, if_false,
          showMessage_requests, startLockTimer]
      · simp only [lockSeatsResume, hs, if_true, hm]
        rfl
    · simp only [lockSeatsResume, hs, if_false, restoreLockBtn, showMessage_requests,
        Bool.false_eq_true]

theorem firstSeatIndex_some (seats : List Seat) (n : String) (i : Nat)
    (h : firstSeatIndex seats n = some i) : ∃ el, seats[i]? = some el ∧ el.seat = n := by
  induction seats generalizing i with
  | nil => simp [firstSeatIndex] at h
  | cons el rest ih =>
    unfold firstSeatIndex at h
    split at h
    · rename_i heq
      cases h
      exact ⟨el, by simp, heq⟩
    · cases hq : firstSeatIndex rest n with
      | none => rw [hq] at h; cases h
      | some j =>
        rw [hq] at h
        cases h
        obtain ⟨el2, h1, h2⟩ := ih j hq
        exact ⟨el2, by simpa using h1, h2⟩

theorem lockSeatElement_seat (seats : List Seat) (i : Nat) :
    (lockSeatElement seats i).map (fun el => el.seat) = seats.map (fun el => el.seat) := by
  unfold lockSeatElement
  split
  · rfl
  · rename_i el hel
    apply List.ext_getElem?
    intro j
    simp only [List.getElem?_map, List.getElem?_set]
    split
    · rename_i hij
      subst hij
      split
      · simp [hel]
      · rename_i hlt
        rw [List.getElem?_eq_none (by omega)] at hel
        cases hel
    · rfl

theorem firstSeatIndex_congr (s1 s2 : List Seat) (n : String)
    (h : s1.map (fun el => el.seat) = s2.map (fun el => el.seat)) :
    firstSeatIndex s1 n = firstSeatIndex s2 n := by
  induction s1 generalizing s2 with
  | nil =>
    cases s2 with
    | nil => rfl
    | cons b s2 => simp at h
  | cons a s1 ih =>
    cases s2 with
    | nil => simp at h
    | cons b s2 =>
      simp only [List.map_cons, List.cons.injEq] at h
      simp only [firstSeatIndex, h.1, ih s2 h.2]

theorem lockSeatElement_keeps_locked (seats : List Seat) (j i : Nat)
    (h : (seats[i]?).map (fun el => el.status) = some "user_locked") :
    ((lockSeatElement seats j)[i]?).map (fun el => el.status) = some "user_locked" := by
  unfold lockSeatElement
  split
  · exact h
  · rename_i el hel
    simp only [List.getElem?_set]
    split
    · rename_i hij
      subst hij
      split
      · rfl
      · rename_i hlt
        rw [List.getElem?_eq_none (by omega)] at h
        cases h
    · exact h

theorem markUserLocked_seat (seats : List Seat) (m : String) :
    (markUserLocked seats m).map (fun el => el.seat) = seats.map (fun el => el.seat) := by
  unfold markUserLocked
  split
  · rfl
  · exact lockSeatElement_seat seats _

theorem markUserLocked_keeps_locked (seats : List Seat) (m : String) (i : Nat)
    (h : (seats[i]?).map (fun el => el.status) = some "user_locked") :
    ((markUserLocked seats m)[i]?).map (fun el => el.status) = some "user_locked" := by
  unfold markUserLocked
  split
  · exact h
  · exact lockSeatElement_keeps_locked seats _ i h

theorem markUserLocked_locks (seats : List Seat) (n : String) (i : Nat)
    (h : firstSeatIndex seats n = some i) :
    ((markUserLocked seats n)[i]?).map (fun el => el.status) = some "user_locked" := by
  obtain ⟨el, hel, _⟩ := firstSeatIndex_some seats n i h
  unfold markUserLocked lockSeatElement
  simp only [h, hel]
  rw [getElem?_set_self_of_some _ _ _ _ hel]
  rfl

theorem foldl_markUserLocked_keeps_locked (l : List String) (seats : List Seat) (i : Nat)
    (h : (seats[i]?).map (fun el => el.status) = some "user_locked") :
    ((l.foldl markUserLocked seats)[i]?).map (fun el => el.status) = some "user_locked" := by
  induction l generalizing seats with
  | nil => exact h
  | cons m l ih => exact ih _ (markUserLocked_keeps_locked seats m i h)

theorem foldl_markUserLocked_locks (l : List String) (seats : List Seat) (n : String) (i : Nat)
    (hn : n ∈ l) (h : firstSeatIndex seats n = some i) :
    ((l.foldl markUserLocked seats)[i]?).map (fun el => el.status) = some "user_locked" := by
  induction l generalizing seats with
  | nil => cases hn
  | cons m l ih =>
    rw [List.foldl_cons]
    by_cases hm : n = m
    · subst hm
      exact foldl_markUserLocked_keeps_locked l _ i (markUserLocked_locks seats n i h)
    · have hn2 : n ∈ l := by
        rcases List.mem_cons.1 hn with h1 | h1
        · exact absurd h1 hm
        · exact h1
      apply ih _ hn2
      rw [firstSeatIndex_congr _ seats n (markUserLocked_seat seats m)]
      exact h

theorem markSelectedSeats_plain (Q : String → List Seat → SelectorResult) (ids : List String) :
    ∀ seats : List Seat, (∀ n ∈ ids, plainSeatId n = true) →
      markSelectedSeats Q seats ids = (ids.foldl markUserLocked seats, false) := by
  induction ids with
  | nil => intro seats _; rfl
  | cons n ids ih =>
    intro seats h
    have hn : plainSeatId n = true := h n (List.mem_cons_self _ _)
    have hrest : ∀ m ∈ ids, plainSeatId m = true := fun m hm => h m (List.mem_cons_of_mem _ hm)
    rw [List.foldl_cons]
    unfold markSelectedSeats
    simp only [querySelectorSeat, hn, if_true]
    cases hq : firstSeatIndex seats n with
    | none =>
      simp only [markUserLocked, hq]
      exact ih seats hrest
    | some i =>
      simp only [markUserLocked, hq]
      exact ih _ hrest

theorem lockSeatsCatch_selectedSeats (p : Page) (orig : String) :
    (lockSeatsCatch p orig).selectedSeats = p.selectedSeats := rfl

theorem showMessage_selectedSeats (p : Page) (text type : String) :
    (showMessage p text type).selectedSeats = p.selectedSeats := by
  unfold showMessage; split <;> rfl

theorem showMessage_seats (p : Page) (text type : String) :
    (showMessage p text type).seats = p.seats := by
  unfold showMessage; split <;> rfl

theorem lockSeatsResume_selectedSeats (Q : String → List Seat → SelectorResult) (p : Page)
    (orig : String) (res : FetchResult LockData) :
    (lockSeatsResume Q p orig res).selectedSeats = p.selectedSeats := by
  cases res with
  | rejected => rfl
  | unparsable => rfl
  | json data =>
    by_cases hs : data.success = true
    · cases hm : (markSelectedSeats Q p.seats p.selectedSeats).2
      · simp only [lockSeatsResume, hs, if_true, hm, Bool.false_eq_true, if_false,
          showMessage_selectedSeats, startLockTimer]
      · simp only [lockSeatsResume, hs, if_true, hm, lockSeatsCatch_selectedSeats]
    · simp only [lockSeatsResume, hs, if_false, restoreLockBtn, showMessage_selectedSeats,
        Bool.false_eq_true]

theorem lockSeatsResume_success_seats (Q : String → List Seat → SelectorResult) (p : Page)
    (orig : String) (data : LockData) (hs : data.success = true)
    (hplain : ∀ n ∈ p.selectedSeats, plainSeatId n = true) :
    (lockSeatsResume Q p orig (FetchResult.json data)).seats
        = p.selectedSeats.foldl markUserLocked p.seats := by
  simp only [lockSeatsResume, hs, if_true, markSelectedSeats_plain Q p.selectedSeats p.seats hplain,
    Bool.false_eq_true, if_false, showMessage_seats, startLockTimer]

theorem clickSeat_requests (N : JSNumber → String) (p : Page) (c : Nat) :
    (clickSeat N p c).requests = p.requests := by
  unfold clickSeat
  split
  · rfl
  · split
    · unfold toggleSeat
      split
      · rfl
      · split
        · rfl
        · split <;> (unfold updateBookingSummary; split <;> rfl)
    · rfl


theorem toggleSeat_status (N : JSNumber → String) (r : Page) (j i : Nat) :
    ((toggleSeat N r j).seats[i]?).map (fun el => el.status)
      = (r.seats[i]?).map (fun el => el.status) := by
  unfold toggleSeat
  split
  · rfl
  · rename_i el hel
    split
    · rfl
    · split
      · rw [updateBookingSummary_seats]
        simp only [List.getElem?_set]
        split
        · rename_i hji
          subst hji
          split
          · simp [hel]
          · rename_i hlt
            rw [List.getElem?_eq_none (by omega)] at hel
            cases hel
        · rfl
      · rw [updateBookingSummary_seats]
        simp only [List.getElem?_set]
        split
        · rename_i hji
          subst hji
          split
          · simp [hel]
          · rename_i hlt
            rw [List.getElem?_eq_none (by omega)] at hel
            cases hel
        · rfl

theorem clickSeat_status (N : JSNumber → String) (r : Page) (j i : Nat) :
    ((clickSeat N r j).seats[i]?).map (fun el => el.status)
      = (r.seats[i]?).map (fun el => el.status) := by
  unfold clickSeat
  split
  · rfl
  · split
    · exact toggleSeat_status N r j i
    · rfl

theorem foldl_clickSeat_status (N : JSNumber → String) (clicks : List Nat) (r : Page) (i : Nat) :
    ((clicks.foldl (clickSeat N) r).seats[i]?).map (fun el => el.status)
      = (r.seats[i]?).map (fun el => el.status) := by
  induction clicks generalizing r with
  | nil => rfl
  | cons c clicks ih => rw [List.foldl_cons, ih, clickSeat_status]

theorem clickSeat_not_available (N : JSNumber → String) (r : Page) (c : Nat)
    (h : ∀ el, r.seats[c]? = some el → el.status ≠ "available") : clickSeat N r c = r := by
  unfold clickSeat
  split
  · rfl
  · rename_i el hel
    split
    · exact toggleSeat_not_available N r c el hel (h el hel)
    · rfl

theorem foldl_clickSeat_not_available (N : JSNumber → String) (clicks : List Nat) (r : Page)
    (h : ∀ c ∈ clicks, ∀ el, r.seats[c]? = some el → el.status ≠ "available") :
    clicks.foldl (clickSeat N) r = r := by
  induction clicks with
  | nil => rfl
  | cons c clicks ih =>
    rw [List.foldl_cons, clickSeat_not_available N r c (h c (List.mem_cons_self _ _))]
    exact ih (fun c hc => h c (List.mem_cons_of_mem _ hc))

/-- C3, as stated, fails.  On the page where A1 was selected and locked, seat
A2 is still "available" and has its click listener: a click on it makes
SelectedSeats A1, A2, and the order request then carries A1, A2 although the
lock request carried A1 only; the same happens when the click on A2 arrives
while the lock request is in flight.  And a selected seat whose number is
`quotedSeatId` is not marked at all, because the selector built from it is
invalid: after the success response it is still "available" and a click on it
empties SelectedSeats. -/
theorem click_after_lock_changes_selection :
    (lockSeats throwingSelectors (clickSeat noBigNumbers loadedPage 0)
      (FetchResult.json { success := true, error := none, expiresAt := some 300000 })).selectedSeats
        = ["A1"] ∧
    ((lockSeats throwingSelectors (clickSeat noBigNumbers loadedPage 0)
      (FetchResult.json { success := true, error := none, expiresAt := some 300000 })).seats[1]?)
        = some (listeningSeat "A2") ∧
    (toggleSeat noBigNumbers
      (lockSeats throwingSelectors (clickSeat noBigNumbers loadedPage 0)
        (FetchResult.json { success := true, error := none, expiresAt := some 300000 }))
      1).selectedSeats = ["A1", "A2"] ∧
    ((initiatePaymentBegin
      (clickSeat noBigNumbers
        (lockSeats throwingSelectors (clickSeat noBigNumbers loadedPage 0)
          (FetchResult.json { success := true, error := none, expiresAt := some 300000 }))
        1)).1.requests.map (fun r => (r.url, r.seats)))
        = [("/api/lock_seats/", ["A1"]), ("/api/create_order/", ["A1", "A2"])] ∧
    ((initiatePaymentBegin
      (lockSeatsWithClicks noBigNumbers throwingSelectors (clickSeat noBigNumbers loadedPage 0)
        [1]
        (FetchResult.json { success := true, error := none, expiresAt := some 300000 }))
      ).1.requests.map (fun r => (r.url, r.seats)))
        = [("/api/lock_seats/", ["A1"]), ("/api/create_order/", ["A1", "A2"])] ∧
    plainSeatId quotedSeatId = false ∧
    (lockSeats throwingSelectors (clickSeat noBigNumbers quotedIdPage 0)
      (FetchResult.json { success := true, error := none, expiresAt := some 300000 })).selectedSeats
        = [quotedSeatId] ∧
    (((lockSeats throwingSelectors (clickSeat noBigNumbers quotedIdPage 0)
      (FetchResult.json { success := true, error := none, expiresAt := some 300000 })).seats[0]?).map
        (fun el => el.status)) = some "available" ∧
    (toggleSeat noBigNumbers
      (lockSeats throwingSelectors (clickSeat noBigNumbers quotedIdPage 0)
        (FetchResult.json { success := true, error := none, expiresAt := some 300000 }))
      0).selectedSeats = [] := by
  decide

/-- C3, amended.  When the lock response reports success, `lockSeats` leaves
SelectedSeats as it is, and if every selected seat number is plain (so that
the selector built from it is the attribute selector for that number) it
marks the first element carrying each selected number as "user_locked"; in
every state reached from there by seat clicks that element is still
"user_locked" and `toggleSeat` on it changes nothing.  Seats that are still
"available" remain selectable, while the request is in flight and after the
response: only when every click from the sending of the lock request on lands
on a seat that is not available is SelectedSeats still the list that the lock
request carried, which is then what the create_order and confirm_booking
requests carry. -/
theorem locked_seats_not_toggled (N : JSNumber → String)
    (Q : String → List Seat → SelectorResult) (data : LockData) (hs : data.success = true) :
    (∀ (q : Page) (orig : String) (later : List Nat),
      (lockSeatsResume Q q orig (FetchResult.json data)).selectedSeats = q.selectedSeats ∧
      ((∀ n ∈ q.selectedSeats, plainSeatId n = true) →
        ∀ n i, n ∈ q.selectedSeats → firstSeatIndex q.seats n = some i →
          (((later.foldl (clickSeat N)
              (lockSeatsResume Q q orig (FetchResult.json data))).seats[i]?).map
                (fun el => el.status) = some "user_locked") ∧
          toggleSeat N
              (later.foldl (clickSeat N) (lockSeatsResume Q q orig (FetchResult.json data))) i
            = later.foldl (clickSeat N) (lockSeatsResume Q q orig (FetchResult.json data)))) ∧
    (∀ (p : Page) (inFlight later : List Nat), p.selectedSeats ≠ [] →
      (∀ c ∈ inFlight, ∀ el, p.seats[c]? = some el → el.status ≠ "available") →
      (∀ c ∈ later, ∀ el,
        (lockSeatsWithClicks N Q p inFlight (FetchResult.json data)).seats[c]? = some el →
          el.status ≠ "available") →
      (later.foldl (clickSeat N)
          (lockSeatsWithClicks N Q p inFlight (FetchResult.json data))).selectedSeats
        = p.selectedSeats ∧
      (later.foldl (clickSeat N)
          (lockSeatsWithClicks N Q p inFlight (FetchResult.json data))).requests
        = p.requests ++
          [{ url := "/api/lock_seats/", csrfToken := p.csrfToken, showId := p.showId,
             seats := p.selectedSeats, paymentId := none }] ∧
      ∀ pay,
        ((initiatePaymentBegin (later.foldl (clickSeat N)
          (lockSeatsWithClicks N Q p inFlight (FetchResult.json data)))).1.requests.getLast?).map
            (fun r => r.seats) = some p.selectedSeats ∧
        ((handlePaymentSuccessBegin (later.foldl (clickSeat N)
          (lockSeatsWithClicks N Q p inFlight (FetchResult.json data))) pay).requests.getLast?).map
            (fun r => r.seats) = some p.selectedSeats) := by
  constructor
  · intro q orig later
    refine ⟨lockSeatsResume_selectedSeats Q q orig _, ?_⟩
    intro hplain n i hn hq
    have hseats := lockSeatsResume_success_seats Q q orig data hs hplain
    have hst : ((later.foldl (clickSeat N)
        (lockSeatsResume Q q orig (FetchResult.json data))).seats[i]?).map
          (fun el => el.status) = some "user_locked" := by
      rw [foldl_clickSeat_status, hseats]
      exact foldl_markUserLocked_locks _ _ n i hn hq
    refine ⟨hst, ?_⟩
    cases hel : (later.foldl (clickSeat N)
        (lockSeatsResume Q q orig (FetchResult.json data))).seats[i]? with
    | none => rw [hel] at hst; cases hst
    | some el =>
      rw [hel] at hst
      apply toggleSeat_not_available N _ i el hel
      simp only [Option.map_some', Option.some.injEq] at hst
      rw [hst]
      decide
  · intro p inFlight later hne hfl hlater
    have hlen : p.selectedSeats.length ≠ 0 := fun h0 => hne (List.length_eq_zero.1 h0)
    have hbegin : lockSeatsBegin p =
        ({ p with
            lockSeatsBtn :=
              { p.lockSeatsBtn with
                disabled := true
                textContent := "Locking..."
                classList := classAdd p.lockSeatsBtn.classList "loading" }
            requests := p.requests ++
              [{ url := "/api/lock_seats/", csrfToken := p.csrfToken, showId := p.showId,
                 seats := p.selectedSeats, paymentId := none }] },
          some p.lockSeatsBtn.textContent) := by
      simp only [lockSeatsBegin, hlen, if_false]
    have hwith : lockSeatsWithClicks N Q p inFlight (FetchResult.json data)
        = lockSeatsResume Q (lockSeatsBegin p).1 p.lockSeatsBtn.textContent
            (FetchResult.json data) := by
      have hseatsB : (lockSeatsBegin p).1.seats = p.seats := by rw [hbegin]
      have hfold := foldl_clickSeat_not_available N inFlight (lockSeatsBegin p).1
        (by rw [hseatsB]; exact hfl)
      have hb2 : (lockSeatsBegin p).2 = some p.lockSeatsBtn.textContent := by rw [hbegin]
      unfold lockSeatsWithClicks
      generalize lockSeatsBegin p = b at hb2 hfold
      obtain ⟨q, o⟩ := b
      simp only at hb2 hfold
      subst hb2
      simp only [hfold]
    rw [foldl_clickSeat_not_available N later _ hlater, hwith]
    have hsel : (lockSeatsResume Q (lockSeatsBegin p).1 p.lockSeatsBtn.textContent
        (FetchResult.json data)).selectedSeats = p.selectedSeats := by
      rw [lockSeatsResume_selectedSeats, hbegin]
    have hreq : (lockSeatsResume Q (lockSeatsBegin p).1 p.lockSeatsBtn.textContent
        (FetchResult.json data)).requests = p.requests ++
          [{ url := "/api/lock_seats/", csrfToken := p.csrfToken, showId := p.showId,
             seats := p.selectedSeats, paymentId := none }] := by
      rw [lockSeatsResume_requests, hbegin]
    refine ⟨hsel, hreq, fun pay => ?_⟩
    simp [initiatePaymentBegin, handlePaymentSuccessBegin, hsel]

/-- Witness for the amended C3: A1 selected and locked with no click in flight,
then two clicks on A1. -/
theorem locked_seats_not_toggled_witness :
    ([0, 0].foldl (clickSeat noBigNumbers)
        (lockSeatsWithClicks noBigNumbers throwingSelectors (clickSeat noBigNumbers loadedPage 0)
          [] (FetchResult.json { success := true, error := none, expiresAt := some 300000 }))
      ).selectedSeats = ["A1"] :=
  (((locked_seats_not_toggled noBigNumbers throwingSelectors
    { success := true, error := none, expiresAt := some 300000 } (by decide)).2
      (clickSeat noBigNumbers loadedPage 0) [] [0, 0] (by decide) (by decide) (by decide))).1


/-! ## Locking, payment and confirmation: failure handling -/

/-- C5: with SelectedSeats empty, `lockSeats` issues no request, shows a
message of kind "warning", and leaves the lock button, every seat and
SelectedSeats as they were; and whenever `lockSeats` does issue a request,
SelectedSeats is non-empty and the request goes to /api/lock_seats/. -/
theorem lockSeats_empty_selection (Q : String → List Seat → SelectorResult) (p : Page)
    (res : FetchResult LockData) :
    (p.selectedSeats = [] →
      (lockSeats Q p res).requests = p.requests ∧
      (lockSeats Q p res).messages =
        p.messages.filter (fun m => m.kind != "warning") ++
          [{ text := "Please select at least one seat", kind := "warning" }] ∧
      (lockSeats Q p res).lockSeatsBtn = p.lockSeatsBtn ∧
      (lockSeats Q p res).seats = p.seats ∧
      (lockSeats Q p res).selectedSeats = p.selectedSeats) ∧
    (∀ r, r ∈ (lockSeats Q p res).requests → r ∉ p.requests →
      p.selectedSeats ≠ [] ∧ r.url = "/api/lock_seats/" ∧ r.seats = p.selectedSeats) := by
  constructor
  · intro h
    have : lockSeats Q p res = showMessage p "Please select at least one seat" "warning" := by
      simp [lockSeats, lockSeatsBegin, h]
    rw [this]
    exact ⟨rfl, rfl, rfl, rfl, rfl⟩
  · intro r hr hnot
    by_cases h : p.selectedSeats = []
    · have : lockSeats Q p res = showMessage p "Please select at least one seat" "warning" := by
        simp [lockSeats, lockSeatsBegin, h]
      rw [this] at hr
      exact absurd hr hnot
    · refine ⟨h, ?_⟩
      have hlen : p.selectedSeats.length ≠ 0 := fun h0 => h (List.length_eq_zero.1 h0)
      simp only [lockSeats, lockSeatsBegin, hlen, if_false, lockSeatsResume_requests,
        List.mem_append, List.mem_singleton] at hr
      rcases hr with hr | hr
      · exact absurd hr hnot
      · rw [hr]; exact ⟨rfl, rfl⟩

/-- Witness for C5: on the loaded page nothing is selected and no request goes
out. -/
theorem lockSeats_empty_selection_witness :
    (lockSeats throwingSelectors loadedPage FetchResult.rejected).requests = loadedPage.requests :=
  ((lockSeats_empty_selection throwingSelectors loadedPage FetchResult.rejected).1 (by decide)).1

theorem renderMarkup_of_no_markup (l : List Char)
    (h : l.all (fun c => c != '<' && c != '&' && c.toNat != 13 && c.toNat != 0) = true) :
    renderMarkup l = some l := by
  induction l with
  | nil => rfl
  | cons c rest ih =>
    simp only [List.all_cons, Bool.and_eq_true, bne_iff_ne, ne_eq] at h
    obtain ⟨⟨⟨⟨h1, h2⟩, h3⟩, h4⟩, hrest⟩ := h
    unfold renderMarkup
    simp only [h1, h2, h3, h4, if_false, or_self, ih hrest, Option.map_some']

theorem startsWithChars_append (x post : List Char) : startsWithChars (x ++ post) x = true := by
  induction x with
  | nil => cases post <;> rfl
  | cons c x ih => simp [startsWithChars, ih]

theorem containsChars_append (pre x post : List Char) :
    containsChars (pre ++ (x ++ post)) x = true := by
  induction pre with
  | nil =>
    rw [List.nil_append]
    cases hxp : x ++ post with
    | nil =>
      have hx : x = [] := (List.append_eq_nil.1 hxp).1
      rw [hx]; rfl
    | cons c s =>
      unfold containsChars
      rw [← hxp, startsWithChars_append]
      rfl
  | cons c pre ih =>
    rw [List.cons_append]
    unfold containsChars
    rw [ih, Bool.or_true]

/-- C6, as stated, fails for an error text with markup in it: with
X = "Seat <b>A1</b> is taken" the message is written through `innerHTML`, so
what it shows is "Error confirming booking: Seat A1 is taken", which does not
contain X. -/
theorem handlePaymentSuccess_failure_markup :
    ((handlePaymentSuccess loadedPage (some "pay_1")
        (FetchResult.json { success := false, error := some "Seat <b>A1</b> is taken" })
      ).messages.map Message.shownText)
        = [some "Error confirming booking: Seat A1 is taken"] ∧
    containsChars "Error confirming booking: Seat A1 is taken".data
        "Seat <b>A1</b> is taken".data = false := by
  decide

/-- C6, amended: when the confirmation response is `success: false` with error
text `X`, `handlePaymentSuccess` puts up an error-kind message built from
"Error confirming booking: " followed by `X`, hides the payment modal, and
schedules exactly one new timeout: a page reload after 3000 ms (so no redirect
to /bookings/); nothing is reloaded at once.  When `X` has no markup character
(no "<", no "&", no carriage return, no NUL) the text the message shows is
"Error confirming booking: " followed by `X`, and so contains `X`. -/
theorem handlePaymentSuccess_failure (p : Page) (pay : Option String) (X : String) :
    (handlePaymentSuccess p pay (FetchResult.json { success := false, error := some X })).messages
      = p.messages.filter (fun m => m.kind != "error") ++
          [{ text := "Error confirming booking: " ++ X, kind := "error" }] ∧
    (markupFree X = true →
      Message.shownText { text := "Error confirming booking: " ++ X, kind := "error" }
        = some ("Error confirming booking: " ++ X) ∧
      containsChars ("Error confirming booking: " ++ X).data X.data = true) ∧
    (handlePaymentSuccess p pay
      (FetchResult.json { success := false, error := some X })).modalDisplay = "none" ∧
    (handlePaymentSuccess p pay (FetchResult.json { success := false, error := some X })).timeouts
      = p.timeouts ++ [(3000, TimeoutAction.reload)] ∧
    (∀ d url, (d, TimeoutAction.redirect url) ∈
        (handlePaymentSuccess p pay
          (FetchResult.json { success := false, error := some X })).timeouts →
      (d, TimeoutAction.redirect url) ∈ p.timeouts) ∧
    (handlePaymentSuccess p pay (FetchResult.json { success := false, error := some X })).reloads
      = p.reloads := by
  refine ⟨rfl, ?_, rfl, rfl, ?_, rfl⟩
  · intro hX
    constructor
    · unfold Message.shownText
      have hall : ("Error confirming booking: " ++ X).data.all
          (fun c => c != '<' && c != '&' && c.toNat != 13 && c.toNat != 0) = true := by
        rw [String.data_append, List.all_append, Bool.and_eq_true]
        exact ⟨by decide, hX⟩
      rw [renderMarkup_of_no_markup _ hall]
      rfl
    · rw [String.data_append]
      have := containsChars_append "Error confirming booking: ".data X.data []
      rw [List.append_nil] at this
      exact this
  · intro d url h
    have h2 : (d, TimeoutAction.redirect url) ∈ p.timeouts ++ [(3000, TimeoutAction.reload)] := h
    rcases List.mem_append.1 h2 with h3 | h3
    · exact h3
    · rw [List.mem_singleton] at h3
      cases h3

/-- Witness for the amended C6: a plain error text is shown as it is. -/
theorem handlePaymentSuccess_failure_witness :
    Message.shownText
        { text := "Error confirming booking: " ++ "Payment could not be verified",
          kind := "error" }
      = some ("Error confirming booking: " ++ "Payment could not be verified") :=
  ((handlePaymentSuccess_failure loadedPage (some "pay_1") "Payment could not be verified").2.1
    (by decide)).1


/-- C7, as stated, fails: on the locked page a rejected or unparsable
confirmation schedules nothing, while the `success: false` response schedules
the reload. -/
theorem transport_failure_no_reload :
    (handlePaymentSuccess
      (lockSeats throwingSelectors (clickSeat noBigNumbers loadedPage 0)
        (FetchResult.json { success := true, error := none, expiresAt := some 300000 }))
      (some "pay_1") FetchResult.rejected).timeouts
        = (lockSeats throwingSelectors (clickSeat noBigNumbers loadedPage 0)
            (FetchResult.json { success := true, error := none, expiresAt := some 300000 })).timeouts ∧
    (handlePaymentSuccess
      (lockSeats throwingSelectors (clickSeat noBigNumbers loadedPage 0)
        (FetchResult.json { success := true, error := none, expiresAt := some 300000 }))
      (some "pay_1") FetchResult.unparsable).timeouts
        = (lockSeats throwingSelectors (clickSeat noBigNumbers loadedPage 0)
            (FetchResult.json { success := true, error := none, expiresAt := some 300000 })).timeouts ∧
    (3000, TimeoutAction.reload) ∉
      (handlePaymentSuccess
        (lockSeats throwingSelectors (clickSeat noBigNumbers loadedPage 0)
          (FetchResult.json { success := true, error := none, expiresAt := some 300000 }))
        (some "pay_1") FetchResult.rejected).timeouts ∧
    (3000, TimeoutAction.reload) ∈
      (handlePaymentSuccess
        (lockSeats throwingSelectors (clickSeat noBigNumbers loadedPage 0)
          (FetchResult.json { success := true, error := none, expiresAt := some 300000 }))
        (some "pay_1") (FetchResult.json { success := false, error := some "X" })).timeouts := by
  decide

/-- C7, amended: when the confirmation request is rejected or its response
cannot be parsed, `handlePaymentSuccess` logs the error, puts up the
error-kind message asking the user to contact support and hides the payment
modal; it schedules no timeout (neither reload nor redirect) and reloads
nothing, so the page is left in place. -/
theorem handlePaymentSuccess_transport_failure (p : Page) (pay : Option String)
    (res : FetchResult ConfirmData) (hres : ∀ d, res ≠ FetchResult.json d) :
    (handlePaymentSuccess p pay res).messages
      = p.messages.filter (fun m => m.kind != "error") ++
          [{ text := "An error occurred while confirming booking. Please contact support.",
             kind := "error" }] ∧
    (handlePaymentSuccess p pay res).modalDisplay = "none" ∧
    (handlePaymentSuccess p pay res).timeouts = p.timeouts ∧
    (handlePaymentSuccess p pay res).reloads = p.reloads ∧
    (handlePaymentSuccess p pay res).consoleErrors
      = p.consoleErrors ++ ["Error confirming booking:"] := by
  cases res with
  | rejected => exact ⟨rfl, rfl, rfl, rfl, rfl⟩
  | unparsable => exact ⟨rfl, rfl, rfl, rfl, rfl⟩
  | json d => exact absurd rfl (hres d)

/-- Witness for the amended C7: a rejected confirmation on the locked page. -/
theorem handlePaymentSuccess_transport_failure_witness :
    (handlePaymentSuccess
      (lockSeats throwingSelectors (clickSeat noBigNumbers loadedPage 0)
        (FetchResult.json { success := true, error := none, expiresAt := some 300000 }))
      (some "pay_1") FetchResult.rejected).reloads = 0 :=
  (handlePaymentSuccess_transport_failure
    (lockSeats throwingSelectors (clickSeat noBigNumbers loadedPage 0)
      (FetchResult.json { success := true, error := none, expiresAt := some 300000 }))
    (some "pay_1") FetchResult.rejected (fun d h => by cases h)).2.2.2.1

theorem lockSeats_failure (Q : String → List Seat → SelectorResult) (p : Page)
    (res : FetchResult LockData) (h : p.selectedSeats ≠ [])
    (hres : ∀ d, res = FetchResult.json d → d.success = false) :
    ∃ text errs, lockSeats Q p res =
      { p with
        lockSeatsBtn :=
          { p.lockSeatsBtn with
            disabled := false
            classList := classRemove (classAdd p.lockSeatsBtn.classList "loading") "loading" }
        requests := p.requests ++
          [{ url := "/api/lock_seats/", csrfToken := p.csrfToken, showId := p.showId,
             seats := p.selectedSeats, paymentId := none }]
        messages :=
          p.messages.filter (fun m => m.kind != "error") ++ [{ text := text, kind := "error" }]
        consoleErrors := p.consoleErrors ++ errs } := by
  have hlen : p.selectedSeats.length ≠ 0 := fun h0 => h (List.length_eq_zero.1 h0)
  cases res with
  | rejected =>
    refine ⟨"An error occurred while locking seats. Please try again.",
      ["Error locking seats:"], ?_⟩
    simp only [lockSeats, lockSeatsBegin, hlen, if_false, lockSeatsResume, lockSeatsCatch,
      showMessage_error, restoreLockBtn]
  | unparsable =>
    refine ⟨"An error occurred while locking seats. Please try again.",
      ["Error locking seats:"], ?_⟩
    simp only [lockSeats, lockSeatsBegin, hlen, if_false, lockSeatsResume, lockSeatsCatch,
      showMessage_error, restoreLockBtn]
  | json d =>
    have hd := hres d rfl
    refine ⟨"Error: " ++ errorText d.error, [], ?_⟩
    simp [lockSeats, lockSeatsBegin, hlen, lockSeatsResume, hd, showMessage_error,
      restoreLockBtn]

theorem initiatePayment_failure (p : Page) (res : FetchResult OrderData)
    (hres : ∀ d, res = FetchResult.json d → d.success = false) :
    ∃ text errs, initiatePayment p res =
      { p with
        proceedPaymentBtn :=
          { p.proceedPaymentBtn with
            disabled := false
            classList :=
              classRemove (classAdd p.proceedPaymentBtn.classList "loading") "loading" }
        paymentMessage := "Initializing payment..."
        modalDisplay := "none"
        requests := p.requests ++
          [{ url := "/api/create_order/", csrfToken := p.csrfToken, showId := p.showId,
             seats := p.selectedSeats, paymentId := none }]
        messages :=
          p.messages.filter (fun m => m.kind != "error") ++ [{ text := text, kind := "error" }]
        consoleErrors := p.consoleErrors ++ errs } := by
  cases res with
  | rejected =>
    refine ⟨"An error occurred while initializing payment. Please try again.",
      ["Error creating order:"], ?_⟩
    simp only [initiatePayment, initiatePaymentBegin, initiatePaymentResume, showMessage_error,
      restorePaymentBtn]
  | unparsable =>
    refine ⟨"An error occurred while initializing payment. Please try again.",
      ["Error creating order:"], ?_⟩
    simp only [initiatePayment, initiatePaymentBegin, initiatePaymentResume, showMessage_error,
      restorePaymentBtn]
  | json d =>
    have hd := hres d rfl
    refine ⟨"Error: " ++ errorText d.error, [], ?_⟩
    simp [initiatePayment, initiatePaymentBegin, initiatePaymentResume, hd, showMessage_error,
      restorePaymentBtn]

/-- C8: after a failed lock attempt or a failed order creation (a response
with `success: false`, a rejected request, or an unparsable response) the
triggering button is enabled, carries the label it had before the attempt and
has no "loading" class; SelectedSeats is unchanged, the attempt has issued its
one request and nothing more, no timeout is scheduled, an error-kind message is
shown, and for `initiatePayment` the payment modal is hidden and the payment
widget is not opened. -/
theorem failure_restores_button (Q : String → List Seat → SelectorResult) (p : Page) :
    (∀ res : FetchResult LockData, p.selectedSeats ≠ [] →
      (∀ d, res = FetchResult.json d → d.success = false) →
      (lockSeats Q p res).lockSeatsBtn.disabled = false ∧
      (lockSeats Q p res).lockSeatsBtn.textContent = p.lockSeatsBtn.textContent ∧
      classContains (lockSeats Q p res).lockSeatsBtn.classList "loading" = false ∧
      (lockSeats Q p res).lockSeatsBtn.display = p.lockSeatsBtn.display ∧
      (lockSeats Q p res).selectedSeats = p.selectedSeats ∧
      (lockSeats Q p res).seats = p.seats ∧
      (lockSeats Q p res).requests = p.requests ++
        [{ url := "/api/lock_seats/", csrfToken := p.csrfToken, showId := p.showId,
           seats := p.selectedSeats, paymentId := none }] ∧
      (lockSeats Q p res).timeouts = p.timeouts ∧
      (∃ m ∈ (lockSeats Q p res).messages, m.kind = "error")) ∧
    (∀ res : FetchResult OrderData,
      (∀ d, res = FetchResult.json d → d.success = false) →
      (initiatePayment p res).proceedPaymentBtn.disabled = false ∧
      (initiatePayment p res).proceedPaymentBtn.textContent = p.proceedPaymentBtn.textContent ∧
      classContains (initiatePayment p res).proceedPaymentBtn.classList "loading" = false ∧
      (initiatePayment p res).proceedPaymentBtn.display = p.proceedPaymentBtn.display ∧
      (initiatePayment p res).selectedSeats = p.selectedSeats ∧
      (initiatePayment p res).requests = p.requests ++
        [{ url := "/api/create_order/", csrfToken := p.csrfToken, showId := p.showId,
           seats := p.selectedSeats, paymentId := none }] ∧
      (initiatePayment p res).timeouts = p.timeouts ∧
      (initiatePayment p res).modalDisplay = "none" ∧
      (initiatePayment p res).widgetOpened = p.widgetOpened ∧
      (∃ m ∈ (initiatePayment p res).messages, m.kind = "error")) := by
  constructor
  · intro res h hres
    obtain ⟨text, errs, heq⟩ := lockSeats_failure Q p res h hres
    rw [heq]
    refine ⟨rfl, rfl, classContains_classRemove _ _, rfl, rfl, rfl, rfl, rfl, ?_⟩
    exact ⟨{ text := text, kind := "error" }, by simp, rfl⟩
  · intro res hres
    obtain ⟨text, errs, heq⟩ := initiatePayment_failure p res hres
    rw [heq]
    refine ⟨rfl, rfl, classContains_classRemove _ _, rfl, rfl, rfl, rfl, rfl, rfl, ?_⟩
    exact ⟨{ text := text, kind := "error" }, by simp, rfl⟩

/-- Witness for C8: a rejected lock request on the page where A1 is selected,
and a `success: false` order response on the same page. -/
theorem failure_restores_button_witness :
    (lockSeats throwingSelectors (clickSeat noBigNumbers loadedPage 0) FetchResult.rejected).lockSeatsBtn.textContent
      = "Lock Seats" ∧
    (initiatePayment (clickSeat noBigNumbers loadedPage 0)
      (FetchResult.json { success := false, error := some "Seats no longer locked",
                          amount := JSNumber.nan, currency := "", orderId := "" })).modalDisplay
      = "none" :=
  ⟨((failure_restores_button throwingSelectors (clickSeat noBigNumbers loadedPage 0)).1 FetchResult.rejected
      (by decide) (fun d h => by cases h)).2.1,
   ((failure_restores_button throwingSelectors (clickSeat noBigNumbers loadedPage 0)).2
      (FetchResult.json { success := false, error := some "Seats no longer locked",
                          amount := JSNumber.nan, currency := "", orderId := "" })
      (fun d h => by cases h; rfl)).2.2.2.2.2.2.2.1⟩

/-! ## The countdown display -/

theorem decimalDigits_head (fuel : Nat) :
    ∀ n acc, n < fuel → 0 < n → (decimalDigits fuel n acc).head? ≠ some '0' := by
  induction fuel with
  | zero => intro n acc h; omega
  | succ fuel ih =>
    intro n acc h hpos
    unfold decimalDigits
    split
    · rename_i h0
      have hn : n < 10 := by omega
      simp only [List.head?_cons, ne_eq, Option.some.injEq]
      interval_cases n <;> decide
    · rename_i h0
      exact ih (n / 10) _ (by omega) (by omega)

theorem padStart2_seconds (s : Nat) (h : s < 60) :
    padStart2 (natToString s) = String.mk [digitChar (s / 10), digitChar s] := by
  interval_cases s <;> rfl

/-- C9: on a tick with a valid expiry and remaining time `t = expiry - now`:
if `t ≤ 0` the interval is cleared and the text is "0:00"; otherwise the
interval keeps running and the text is the decimal digits of `t / 60000`
(no leading zero, no hour part), a ":", and exactly two digits that read
`t % 60000 / 1000`, a number below 60.  With 65000 ms left the text is
"1:05". -/
theorem lockTimerTick_display (p : Page) (ms now : Int) (h : p.lockExpiry = LockExpiry.time ms) :
    (ms - now ≤ 0 →
      (lockTimerTick p now).timerText = "0:00" ∧
      (∀ id, p.lockTimer = some id → id ∉ (lockTimerTick p now).intervals)) ∧
    (0 < ms - now →
      (lockTimerTick p now).intervals = p.intervals ∧
      (lockTimerTick p now).timerText
        = natToString ((ms - now).toNat / 60000) ++ ":" ++
            padStart2 (natToString ((ms - now).toNat % 60000 / 1000)) ∧
      (ms - now).toNat % 60000 / 1000 < 60 ∧
      ∃ mins d1 d2,
        (lockTimerTick p now).timerText = String.mk (mins ++ [':', d1, d2]) ∧
        mins ≠ [] ∧ (∀ c ∈ mins, c.isDigit = true) ∧
        digitsValue mins = (ms - now).toNat / 60000 ∧
        (0 < (ms - now).toNat / 60000 → mins.head? ≠ some '0') ∧
        d1.isDigit = true ∧ d2.isDigit = true ∧
        digitsValue [d1, d2] = (ms - now).toNat % 60000 / 1000) ∧
    (ms - now = 65000 → (lockTimerTick p now).timerText = "1:05") := by
  have hsec : ∀ t : Nat, t % 60000 / 1000 < 60 := fun t => by omega
  have htext : 0 < ms - now → (lockTimerTick p now).timerText = timerLabel (ms - now).toNat := by
    intro hpos
    have hn : ¬ ms - now ≤ 0 := by omega
    simp only [lockTimerTick, remainingTime, h, hn, if_false]
    split <;> rfl
  refine ⟨?_, ?_, ?_⟩
  · intro hle
    simp only [lockTimerTick, remainingTime, h, hle, if_true, clearLockInterval, true_and]
    intro id hid
    simp [hid]
  · intro hpos
    have hn : ¬ ms - now ≤ 0 := by omega
    refine ⟨?_, htext hpos, hsec _, ?_⟩
    · simp only [lockTimerTick, remainingTime, h, hn, if_false]
      split <;> rfl
    · obtain ⟨mins, h1, h2, h3, h4⟩ :=
        decimalDigits_spec ((ms - now).toNat / 60000 + 1) ((ms - now).toNat / 60000) []
          (Nat.lt_succ_self _)
      rw [List.append_nil] at h1
      refine ⟨mins, digitChar ((ms - now).toNat % 60000 / 1000 / 10),
        digitChar ((ms - now).toNat % 60000 / 1000), ?_, h2, h3, h4, ?_,
        digitChar_isDigit _, digitChar_isDigit _, ?_⟩
      · rw [htext hpos, timerLabel, padStart2_seconds _ (hsec _), natToString, h1]
        apply String.ext
        simp [String.data_append]
      · intro hm
        rw [← h1]
        exact decimalDigits_head _ _ _ (Nat.lt_succ_self _) hm
      · simp only [digitsValue, List.foldl, digitChar_toNat]
        have := hsec (ms - now).toNat
        omega
  · intro h65
    rw [htext (by omega), h65]
    decide

/-- Witness for C9: expiry 65 seconds ahead shows "1:05". -/
theorem lockTimerTick_display_witness :
    (lockTimerTick
      (lockSeats throwingSelectors (clickSeat noBigNumbers loadedPage 0)
        (FetchResult.json { success := true, error := none, expiresAt := some 300000 }))
      235000).timerText = "1:05" :=
  (lockTimerTick_display
    (lockSeats throwingSelectors (clickSeat noBigNumbers loadedPage 0)
      (FetchResult.json { success := true, error := none, expiresAt := some 300000 }))
    300000 235000 (by decide)).2.2 (by decide)

/-! ## The search debounce -/

theorem debounce_run (es : List (Nat × String)) :
    ∀ (s : FilterPage) (e : Nat × String) (id : Nat),
      s.pending = [(id, e.1 + 250)] → s.searchDebounce = some id → s.fetchCalls = [] →
      s.now = e.1 → closelySpaced (e :: es) = true →
      (settle (es.foldl inputEventAt s)).fetchCalls
        = [((e :: es).getLast (List.cons_ne_nil e es)).1 + 250] := by
  induction es with
  | nil =>
    intro s e id hp _ hf _ _
    simp [settle, hp, hf]
  | cons e2 es ih =>
    intro s e id hp hd hf hnow hcs
    simp only [closelySpaced, Bool.and_eq_true, decide_eq_true_eq] at hcs
    obtain ⟨⟨hle, hlt⟩, hrest⟩ := hcs
    rw [List.foldl_cons, List.getLast_cons (List.cons_ne_nil e2 es)]
    have hnot : ¬ e.1 + 250 ≤ e2.1 := by omega
    apply ih (inputEventAt s e2) e2 s.nextTimerId
    · simp [inputEventAt, onSearchInput, advanceTo, hp, hd, hnot, clearTimeoutId, hnow, hle]
    · simp [inputEventAt, onSearchInput, advanceTo]
    · simp [inputEventAt, onSearchInput, advanceTo, hp, hf, hnot]
    · simp only [inputEventAt, onSearchInput, advanceTo, hnow]
      omega
    · exact hrest

/-- C10: for every non-empty sequence of `input` events on the search field,
the first not before the page was set up and each following the previous one
by less than 250 ms, `fetchFilteredMovies` is called exactly once, 250 ms
after the last event. -/
theorem debounce_single_fetch (t0 : Nat) (clearBtn : Option String) (e : Nat × String)
    (es : List (Nat × String)) (h0 : t0 ≤ e.1) (hcs : closelySpaced (e :: es) = true) :
    fetchTimes t0 clearBtn (e :: es)
      = [((e :: es).getLast (List.cons_ne_nil e es)).1 + 250] := by
  unfold fetchTimes
  rw [List.foldl_cons]
  apply debounce_run es (inputEventAt (FilterPage.init t0 clearBtn) e) e 1
  · simp [inputEventAt, onSearchInput, advanceTo, FilterPage.init, clearTimeoutId, h0]
  · simp [inputEventAt, onSearchInput, advanceTo, FilterPage.init]
  · simp [inputEventAt, onSearchInput, advanceTo, FilterPage.init]
  · simp only [inputEventAt, onSearchInput, advanceTo, FilterPage.init]
    omega
  · exact hcs

/-- Witness for C10: five keystrokes within 100 ms give one fetch, at 350 =
100 + 250. -/
theorem debounce_single_fetch_witness :
    fetchTimes 0 (some "none") [(0, "d"), (20, "du"), (40, "dun"), (60, "dune"), (100, "dune ")]
      = [100 + 250] :=
  debounce_single_fetch 0 (some "none") (0, "d")
    [(20, "du"), (40, "dun"), (60, "dune"), (100, "dune ")] (by decide) (by decide)

/-! ## The selection invariant -/

theorem seat_ne_of_index_ne (seats : List Seat) (j c : Nat) (a b : Seat)
    (hids : (seats.map (fun el => el.seat)).Nodup) (ha : seats[j]? = some a)
    (hb : seats[c]? = some b) (hne : j ≠ c) : a.seat ≠ b.seat := by
  intro heq
  have h1 : (seats.map (fun el => el.seat))[j]? = some a.seat := by simp [ha]
  have h2 : (seats.map (fun el => el.seat))[c]? = some b.seat := by simp [hb]
  rw [heq] at h1
  rcases Nat.lt_or_gt_of_ne hne with hlt | hlt
  · have hc : c < (seats.map (fun el => el.seat)).length := by
      rcases Nat.lt_or_ge c (seats.map (fun el => el.seat)).length with h | h
      · exact h
      · rw [List.getElem?_eq_none h] at h2; cases h2
    exact List.nodup_iff_getElem?_ne_getElem?.1 hids j c hlt hc (h1.trans h2.symm)
  · have hj : j < (seats.map (fun el => el.seat)).length := by
      rcases Nat.lt_or_ge j (seats.map (fun el => el.seat)).length with h | h
      · exact h
      · rw [List.getElem?_eq_none h] at h1; cases h1
    exact List.nodup_iff_getElem?_ne_getElem?.1 hids c j hlt hj (h2.trans h1.symm)

theorem map_seat_set (seats : List Seat) (c : Nat) (el el2 : Seat)
    (hel : seats[c]? = some el) (hseat : el2.seat = el.seat) :
    (seats.set c el2).map (fun e => e.seat) = seats.map (fun e => e.seat) := by
  apply List.ext_getElem?
  intro j
  simp only [List.getElem?_map, List.getElem?_set]
  split
  · rename_i hcj
    subst hcj
    split
    · simp [hel, hseat]
    · rename_i hlt
      rw [List.getElem?_eq_none (by omega)] at hel
      cases hel
  · rfl

theorem marker_step (seats : List Seat) (sel sel2 : List String) (c : Nat) (el el2 : Seat)
    (hel : seats[c]? = some el) (hseat : el2.seat = el.seat)
    (hids : (seats.map (fun e => e.seat)).Nodup)
    (hinv : ∀ e ∈ seats, e.seat ∈ sel ↔ classContains e.classList "selected" = true)
    (hother : ∀ x, x ≠ el.seat → (x ∈ sel2 ↔ x ∈ sel))
    (hself : el.seat ∈ sel2 ↔ classContains el2.classList "selected" = true) :
    ∀ e ∈ seats.set c el2, e.seat ∈ sel2 ↔ classContains e.classList "selected" = true := by
  intro e he
  obtain ⟨j, hj⟩ := List.mem_iff_getElem?.1 he
  rw [List.getElem?_set] at hj
  split at hj
  · split at hj
    · cases hj
      rw [hseat]; exact hself
    · cases hj
  · rename_i hcj
    have hmem : e ∈ seats := List.mem_iff_getElem?.2 ⟨j, hj⟩
    have hne : e.seat ≠ el.seat := seat_ne_of_index_ne seats j c e el hids hj hel (Ne.symm hcj)
    rw [hother _ hne]
    exact hinv e hmem

theorem selectionInvariant_step (N : JSNumber → String) (q : Page) (c : Nat) (el : Seat)
    (cl : List String) (sel2 : List String) (hel : q.seats[c]? = some el)
    (h : selectionInvariant q) (hnd2 : sel2.Nodup)
    (hother : ∀ x, x ≠ el.seat → (x ∈ sel2 ↔ x ∈ q.selectedSeats))
    (hself : el.seat ∈ sel2 ↔ classContains cl "selected" = true) :
    selectionInvariant (updateBookingSummary N
      { q with
        seats := q.seats.set c { el with classList := cl }
        selectedSeats := sel2 }) := by
  obtain ⟨hids, _, hinv, hsub⟩ := h
  have helmem : el ∈ q.seats := List.mem_iff_getElem?.2 ⟨c, hel⟩
  have hmap := map_seat_set q.seats c el { el with classList := cl } hel rfl
  unfold selectionInvariant
  rw [updateBookingSummary_seats, updateBookingSummary_selectedSeats]
  refine ⟨?_, hnd2, ?_, ?_⟩
  · show ((q.seats.set c { el with classList := cl }).map (fun e => e.seat)).Nodup
    rw [hmap]; exact hids
  · exact marker_step q.seats q.selectedSeats sel2 c el { el with classList := cl } hel rfl
      hids hinv hother hself
  · show ∀ x ∈ sel2, x ∈ (q.seats.set c { el with classList := cl }).map (fun e => e.seat)
    rw [hmap]
    intro x hx
    by_cases hxe : x = el.seat
    · rw [hxe]; exact List.mem_map.2 ⟨el, helmem, rfl⟩
    · exact hsub x ((hother x hxe).1 hx)

theorem toggleSeat_selectionInvariant (N : JSNumber → String) (q : Page) (c : Nat)
    (h : selectionInvariant q) : selectionInvariant (toggleSeat N q c) := by
  cases hel : q.seats[c]? with
  | none => simpa [toggleSeat, hel] using h
  | some el =>
    have helmem : el ∈ q.seats := List.mem_iff_getElem?.2 ⟨c, hel⟩
    by_cases hs : el.status = "available"
    · cases hc : classContains el.classList "selected"
      · have hnot : el.seat ∉ q.selectedSeats := fun hm => by
          have := (h.2.2.1 el helmem).1 hm
          rw [hc] at this; cases this
        rw [toggleSeat_select N q c el hel hs hc]
        apply selectionInvariant_step N q c el _ _ hel h
        · rw [List.nodup_append]
          refine ⟨h.2.1, List.nodup_singleton _, ?_⟩
          intro a ha hb
          rw [List.mem_singleton] at hb
          subst hb
          exact hnot ha
        · intro x hx
          simp [hx]
        · simp [classContains_classAdd]
      · rw [toggleSeat_deselect N q c el hel hs hc]
        apply selectionInvariant_step N q c el _ _ hel h
        · exact h.2.1.filter _
        · intro x hx
          simp [hx]
        · simp [classContains_classRemove]
    · rw [toggleSeat_not_available N q c el hel hs]
      exact h

theorem foldl_toggleSeat_selectionInvariant (N : JSNumber → String) (calls : List Nat)
    (q : Page) (h : selectionInvariant q) : selectionInvariant (calls.foldl (toggleSeat N) q) := by
  induction calls generalizing q with
  | nil => exact h
  | cons c calls ih => exact ih _ (toggleSeat_selectionInvariant N q c h)

theorem updateBookingSummary_buttonInSync (N : JSNumber → String) (q : Page) :
    buttonInSync (updateBookingSummary N q) := by
  unfold buttonInSync updateBookingSummary
  split
  · rename_i h
    simp [List.length_eq_zero.1 h]
  · rename_i h
    have : q.selectedSeats ≠ [] := fun h0 => h (by rw [h0]; rfl)
    simp [this]

theorem toggleSeat_buttonInSync (N : JSNumber → String) (q : Page) (c : Nat) :
    ((q.seats[c]?).map (fun el => el.status) = some "available" →
      buttonInSync (toggleSeat N q c)) ∧
    (buttonInSync q → buttonInSync (toggleSeat N q c)) := by
  cases hel : q.seats[c]? with
  | none =>
    refine ⟨fun h => by simp at h, fun h => ?_⟩
    simpa [toggleSeat, hel] using h
  | some el =>
    by_cases hs : el.status = "available"
    · have hsync : buttonInSync (toggleSeat N q c) := by
        cases hc : classContains el.classList "selected"
        · rw [toggleSeat_select N q c el hel hs hc]
          exact updateBookingSummary_buttonInSync N _
        · rw [toggleSeat_deselect N q c el hel hs hc]
          exact updateBookingSummary_buttonInSync N _
      exact ⟨fun _ => hsync, fun _ => hsync⟩
    · rw [toggleSeat_not_available N q c el hel hs]
      refine ⟨fun h => ?_, fun h => h⟩
      simp only [Option.map_some', Option.some.injEq] at h
      exact absurd h hs

theorem foldl_toggleSeat_status (N : JSNumber → String) (calls : List Nat) (r : Page) (i : Nat) :
    ((calls.foldl (toggleSeat N) r).seats[i]?).map (fun el => el.status)
      = (r.seats[i]?).map (fun el => el.status) := by
  induction calls generalizing r with
  | nil => rfl
  | cons c calls ih => rw [List.foldl_cons, ih, toggleSeat_status]

theorem foldl_toggleSeat_buttonInSync (N : JSNumber → String) (calls : List Nat) (q : Page)
    (h : buttonInSync q ∨
      ∃ c ∈ calls, (q.seats[c]?).map (fun el => el.status) = some "available") :
    buttonInSync (calls.foldl (toggleSeat N) q) := by
  induction calls generalizing q with
  | nil =>
    rcases h with h | ⟨c, hc, _⟩
    · exact h
    · cases hc
  | cons c calls ih =>
    rw [List.foldl_cons]
    apply ih
    rcases h with h | ⟨c2, hc2, hav⟩
    · exact Or.inl ((toggleSeat_buttonInSync N q c).2 h)
    · rcases List.mem_cons.1 hc2 with heq | hmem
      · subst heq
        exact Or.inl ((toggleSeat_buttonInSync N q c2).1 hav)
      · exact Or.inr ⟨c2, hmem, by rw [toggleSeat_status]; exact hav⟩

/-- C11, as stated, fails in its last part: on a page with distinct seat ids,
nothing selected and no seat marked, but with the lock button served enabled,
a `toggleSeat` call on the booked seat A2 returns early, so the button is still
enabled while SelectedSeats is empty. -/
theorem lock_button_enabled_with_empty_selection :
    (enabledButtonPage.seats.map (fun el => el.seat)).Nodup ∧
    enabledButtonPage.selectedSeats = [] ∧
    (∀ el ∈ enabledButtonPage.seats, classContains el.classList "selected" = false) ∧
    ([1].foldl (toggleSeat noBigNumbers) enabledButtonPage).selectedSeats = [] ∧
    ([1].foldl (toggleSeat noBigNumbers) enabledButtonPage).lockSeatsBtn.disabled = false := by
  decide

/-- C11, amended: assuming every seat id belongs to exactly one seat element
and the page starts with SelectedSeats empty and no seat marked selected, after
every sequence of `toggleSeat` calls SelectedSeats has no duplicate id, a seat
element carries the selected marker exactly when its id is in SelectedSeats,
and every id in SelectedSeats is that of a marked element; the lock button is
disabled exactly when SelectedSeats is empty provided it was disabled at the
start or some call of the sequence was on an available seat. -/
theorem toggleSeat_invariant (N : JSNumber → String) (p : Page) (calls : List Nat)
    (hids : (p.seats.map (fun el => el.seat)).Nodup)
    (hempty : p.selectedSeats = [])
    (hnone : ∀ el ∈ p.seats, classContains el.classList "selected" = false) :
    (calls.foldl (toggleSeat N) p).selectedSeats.Nodup ∧
    (∀ el ∈ (calls.foldl (toggleSeat N) p).seats,
      el.seat ∈ (calls.foldl (toggleSeat N) p).selectedSeats ↔
        classContains el.classList "selected" = true) ∧
    (∀ x ∈ (calls.foldl (toggleSeat N) p).selectedSeats,
      ∃ el ∈ (calls.foldl (toggleSeat N) p).seats,
        el.seat = x ∧ classContains el.classList "selected" = true) ∧
    ((p.lockSeatsBtn.disabled = true ∨
        ∃ c ∈ calls, (p.seats[c]?).map (fun el => el.status) = some "available") →
      ((calls.foldl (toggleSeat N) p).lockSeatsBtn.disabled = true ↔
        (calls.foldl (toggleSeat N) p).selectedSeats = [])) := by
  have hstart : selectionInvariant p := by
    refine ⟨hids, by rw [hempty]; exact List.nodup_nil, ?_, ?_⟩
    · intro el hel
      rw [hempty, hnone el hel]
      simp
    · intro x hx
      rw [hempty] at hx
      cases hx
  obtain ⟨_, hnd, hinv, hsub⟩ := foldl_toggleSeat_selectionInvariant N calls p hstart
  refine ⟨hnd, hinv, ?_, ?_⟩
  · intro x hx
    obtain ⟨el, hel, hseat⟩ := List.mem_map.1 (hsub x hx)
    refine ⟨el, hel, hseat, (hinv el hel).1 ?_⟩
    rw [hseat]; exact hx
  · intro h
    apply foldl_toggleSeat_buttonInSync N calls p
    rcases h with h | h
    · exact Or.inl ⟨fun _ => hempty, fun _ => h⟩
    · exact Or.inr h

/-- Witness for the amended C11 on the loaded page: A1 selected, A2 selected,
A1 deselected. -/
theorem toggleSeat_invariant_witness :
    ([0, 1, 0].foldl (toggleSeat noBigNumbers) loadedPage).selectedSeats.Nodup ∧
    (([0, 1, 0].foldl (toggleSeat noBigNumbers) loadedPage).lockSeatsBtn.disabled = true ↔
      ([0, 1, 0].foldl (toggleSeat noBigNumbers) loadedPage).selectedSeats = []) :=
  ⟨(toggleSeat_invariant noBigNumbers loadedPage [0, 1, 0] (by decide) (by decide)
      (by decide)).1,
   (toggleSeat_invariant noBigNumbers loadedPage [0, 1, 0] (by decide) (by decide)
      (by decide)).2.2.2 (Or.inl (by decide))⟩

end BookMyShows
